import Mathlib

/-!
# Verification of the dispatch voice-agent dialogue state engine

This file gives a shallow embedding of the dialogue state engine of the
`ai-voice-agent-tool` backend and proves properties of it.

Embedded sources:
* `backend/app/services/slot_memory.py` — slot extraction, missing-slot
  policy, canned follow-up and closing text;
* `backend/app/services/escalation.py` — emergency keyword detection;
* `backend/app/db.py` — slot-memory store (`InMemoryDB.update_slot_memory`
  and the textually identical `SupabaseDB.update_slot_memory`);
* `backend/app/services/openai_client.py` — the oracle call discipline
  (retry bounds of `decide_next_action` / `emergency_protocol`);
* `backend/app/api/webhook.py` — the webhook turn handler for speech
  events (`retell_webhook`, lines 132-265);
* `backend/app/api/llm.py` — the Retell custom-LLM WebSocket turn loop
  (`retell_custom_llm_ws`, lines 183-605).

Modelling conventions:
* Python strings are Lean `String`s; the character-class predicates
  (`\w`, `\s`, `\d`, `str.lower`, …) are modelled at ASCII granularity,
  which is exact for every string the engine manipulates.
* Python `None` is `Option.none`; a Python dict with string keys is an
  insertion-ordered association list.
* `re.search` of the concrete patterns appearing in the source is
  implemented directly as a leftmost-match scanner with the same
  backtracking preferences (alternatives tried in written order, greedy
  quantifiers) — one function per pattern.
* Calls to the external LLM oracle are modelled by explicit result
  parameters: `some d` is a successful call returning `d`, `none` is a
  call that raises.  An exception escaping a handler is `Except.error`.
* The webhook handler's `confidence` float is modelled as `Rat`; the
  engine only ever compares it against `0.5`.
-/

namespace VoiceAgent

/-! ## Python string primitives -/

/-- ASCII `\d`. -/
def isPyDigit (c : Char) : Bool := '0' ≤ c && c ≤ '9'

/-- ASCII letter. -/
def isAsciiAlpha (c : Char) : Bool :=
  ('a' ≤ c && c ≤ 'z') || ('A' ≤ c && c ≤ 'Z')

/-- ASCII `\w` (regex word character). -/
def isWordChar (c : Char) : Bool := isAsciiAlpha c || isPyDigit c || c = '_'

/-- ASCII `\s` / `str.strip` whitespace: space, tab, LF, CR, VT, FF. -/
def isPySpace (c : Char) : Bool :=
  c = ' ' || c = '\t' || c = '\n' || c = '\x0d' || c = '\x0b' || c = '\x0c'

/-- ASCII `str.lower`. -/
def pyLower (s : String) : String := ⟨s.data.map Char.toLower⟩

/-- Python substring containment: `needle in hay`. -/
def listContainsSub (needle : List Char) : List Char → Bool
  | [] => needle.isPrefixOf ([] : List Char)
  | c :: t => needle.isPrefixOf (c :: t) || listContainsSub needle t

/-- Python `needle in hay` on strings. -/
def pyIn (needle hay : String) : Bool := listContainsSub needle.data hay.data

/-- Python `str.strip()` (no argument: strips whitespace on both ends). -/
def pyStrip (s : String) : String :=
  ⟨((s.data.dropWhile isPySpace).reverse.dropWhile isPySpace).reverse⟩

/-- Python `str.rstrip(cs)`: drop trailing characters belonging to `cs`. -/
def pyRstrip (cs : List Char) (s : String) : String :=
  ⟨(s.data.reverse.dropWhile (fun c => cs.contains c)).reverse⟩

/-- Python `len(str.split())`: number of maximal nonblank runs. -/
def pyWordCount (s : String) : Nat :=
  (s.data.foldl
    (fun (acc : Nat × Bool) c =>
      if isPySpace c then (acc.1, false)
      else if acc.2 then acc else (acc.1 + 1, true))
    (0, false)).1

/-- Python `str.capitalize()`: first character uppercased, rest lowercased. -/
def pyCapitalize (s : String) : String :=
  match s.data with
  | [] => ""
  | c :: t => ⟨c.toUpper :: t.map Char.toLower⟩

/-- Python truthiness of an optional string: `None` and `""` are falsy. -/
def pyTruthyOpt (v : Option String) : Bool :=
  match v with
  | none => false
  | some s => s ≠ ""

/-- Python `v or dflt` for an optional string `v`. -/
def pyOr (v : Option String) (dflt : String) : String :=
  match v with
  | some s => if s = "" then dflt else s
  | none => dflt

/-- `Option.getD · ""`, the value a truthy check has guaranteed present. -/
def getS (v : Option String) : String := v.getD ""

/-! ## Regex machinery

Each concrete `re.search` call in the source is modelled by a dedicated
leftmost scanner.  `searchFrom` walks the haystack position by position,
carrying the previous character so word boundaries (`\b`) can be decided;
each `…At` matcher implements one pattern at one position with the
backtracking order Python's `re` uses (alternatives left to right, greedy
quantifiers longest first). -/

/-- `\b` at the position between `prev` and the head of `cs`. -/
def boundaryAt (prev : Option Char) (cs : List Char) : Bool :=
  match prev, cs with
  | none, [] => false
  | none, c :: _ => isWordChar c
  | some p, [] => isWordChar p
  | some p, c :: _ => isWordChar p != isWordChar c

/-- `\b` directly after a matched span ending in `last`, with `rest` remaining. -/
def boundAfter (last : Char) (rest : List Char) : Bool :=
  match rest with
  | [] => isWordChar last
  | c :: _ => isWordChar last != isWordChar c

/-- Generic leftmost search: try the position matcher at every position. -/
def searchFrom (matchAt : Option Char → List Char → Option (List Char)) :
    Option Char → List Char → Option (List Char)
  | prev, [] => matchAt prev []
  | prev, c :: t =>
    match matchAt prev (c :: t) with
    | some m => some m
    | none => searchFrom matchAt (some c) t

/-- Case-sensitive literal match; returns the remaining characters. -/
def matchLit : List Char → List Char → Option (List Char)
  | [], cs => some cs
  | _ :: _, [] => none
  | l :: ls, c :: cs => if c = l then matchLit ls cs else none

/-- Case-insensitive literal match (the literal is given lowercased). -/
def matchLitCI : List Char → List Char → Option (List Char)
  | [], cs => some cs
  | _ :: _, [] => none
  | l :: ls, c :: cs => if c.toLower = l then matchLitCI ls cs else none

/-- Greedy `\s+`: `some (spaces, rest)` when at least one space is consumed. -/
def takeSpaces1 (cs : List Char) : Option (List Char × List Char) :=
  let sp := cs.takeWhile isPySpace
  if sp.isEmpty then none else some (sp, cs.dropWhile isPySpace)

/-- Greedy `\d+`: `some (digits, rest)` when at least one digit is consumed. -/
def takeDigits1 (cs : List Char) : Option (List Char × List Char) :=
  let ds := cs.takeWhile isPyDigit
  if ds.isEmpty then none else some (ds, cs.dropWhile isPyDigit)

/-- `(am|pm)` followed by `\b`; `acc` is what the match consumed so far. -/
def matchMeridiem (acc : List Char) : List Char → Option (List Char)
  | a :: m :: r =>
    if (a = 'a' || a = 'p') && m = 'm' && boundAfter 'm' r then some (acc ++ [a, m])
    else none
  | _ => none

/-- `\s?(am|pm)\b` after already-consumed `ds` (greedy: with the space first). -/
def meridiemTail (ds : List Char) (rest : List Char) : Option (List Char) :=
  (match rest with
   | s :: r2 => if isPySpace s then matchMeridiem (ds ++ [s]) r2 else none
   | [] => none)
  <|> matchMeridiem ds rest

/-- `\d{1,2}` greedy (two digits preferred), then `tail` on the remainder. -/
def oneTwoDigits (tail : List Char → List Char → Option (List Char)) :
    List Char → Option (List Char)
  | d1 :: rest =>
    if isPyDigit d1 then
      (match rest with
       | d2 :: rest2 => if isPyDigit d2 then tail [d1, d2] rest2 else none
       | [] => none)
      <|> tail [d1] rest
    else none
  | [] => none

/-- `:\d{2}\b` after already-consumed digits `ds`. -/
def colonTail (ds : List Char) (rest : List Char) : Option (List Char) :=
  match rest with
  | ':' :: a :: b :: r =>
    if isPyDigit a && isPyDigit b && boundAfter b r then some (ds ++ [':', a, b])
    else none
  | _ => none

/-- `slot_memory.py` line 53, one position:
`\b(\d{1,2}\s?(am|pm))\b|\b\d{1,2}:\d{2}\b`. -/
def etaDigitAt (prev : Option Char) (cs : List Char) : Option (List Char) :=
  if !boundaryAt prev cs then none
  else oneTwoDigits meridiemTail cs <|> oneTwoDigits colonTail cs

/-- The twelve spelled-out hour words, in the pattern's alternation order. -/
def numberWords : List String :=
  ["one", "two", "three", "four", "five", "six",
   "seven", "eight", "nine", "ten", "eleven", "twelve"]

/-- `slot_memory.py` line 54, one position:
`\b(one|two|…|twelve)\s?(am|pm)\b`. -/
def etaWordAt (prev : Option Char) (cs : List Char) : Option (List Char) :=
  if !boundaryAt prev cs then none
  else
    numberWords.findSome? (fun w =>
      match matchLit w.data cs with
      | none => none
      | some rest => meridiemTail w.data rest)

/-- One duration-unit alternative (`hours?` etc.): the base unit with an
optional greedy `s`, requiring `\b` right after.  Returns the consumed token. -/
def matchUnit (base : List Char) (cs : List Char) : Option (List Char) :=
  match matchLit base cs with
  | none => none
  | some r =>
    (match r with
     | 's' :: r2 => if boundAfter 's' r2 then some (base ++ ['s']) else none
     | _ => none)
    <|> (if boundAfter (base.getLastD ' ') r then some base else none)

/-- `slot_memory.py` line 55, one position:
`\b(in\s+\d+\s+(hours?|hrs?|minutes?|mins?))\b`. -/
def etaRelAt (prev : Option Char) (cs : List Char) : Option (List Char) :=
  if !boundaryAt prev cs then none
  else
    match matchLit "in".data cs with
    | none => none
    | some r1 =>
      match takeSpaces1 r1 with
      | none => none
      | some (sp1, r2) =>
        match takeDigits1 r2 with
        | none => none
        | some (ds, r3) =>
          match takeSpaces1 r3 with
          | none => none
          | some (sp2, r4) =>
            match ["hour", "hr", "minute", "min"].findSome?
                (fun b => matchUnit b.data r4) with
            | none => none
            | some unit => some ("in".data ++ sp1 ++ ds ++ sp2 ++ unit)

/-- `slot_memory.py` line 56, one position: `\b(today|tonight|tomorrow)\b`. -/
def etaDayAt (prev : Option Char) (cs : List Char) : Option (List Char) :=
  if !boundaryAt prev cs then none
  else
    ["today", "tonight", "tomorrow"].findSome? (fun w =>
      match matchLit w.data cs with
      | none => none
      | some r => if boundAfter (w.data.getLastD ' ') r then some w.data else none)

/-- `re.search` for the digit-time pattern; returns `group(0)`. -/
def etaDigitSearch (s : String) : Option String :=
  (searchFrom etaDigitAt none s.data).map String.mk

/-- `re.search` for the word-number + meridiem pattern; returns `group(0)`. -/
def etaWordSearch (s : String) : Option String :=
  (searchFrom etaWordAt none s.data).map String.mk

/-- `re.search` for the relative-duration pattern; returns `group(0)`. -/
def etaRelSearch (s : String) : Option String :=
  (searchFrom etaRelAt none s.data).map String.mk

/-- `re.search` for the day-word pattern; returns `group(0)`. -/
def etaDaySearch (s : String) : Option String :=
  (searchFrom etaDayAt none s.data).map String.mk

/-- `\bw\b` at one position, for a fixed lowercase word `w`. -/
def wordAt (w : List Char) (prev : Option Char) (cs : List Char) : Option (List Char) :=
  if !boundaryAt prev cs then none
  else
    match matchLit w cs with
    | some r => if boundAfter (w.getLastD ' ') r then some w else none
    | none => none

/-- Whether `\bw\b` matches anywhere in `s` (for boolean-only regex uses). -/
def wordSearch (w : String) (s : String) : Bool :=
  (searchFrom (wordAt w.data) none s.data).isSome

/-! ### The location pattern

`slot_memory.py` line 41 (and its twin in `llm.py` lines 318/393):
`(?i)\b(?:my\s+location\s+is|location\s+is|currently\s+in|in|at|near|around|by|on)\s+([A-Za-z][\w\-\s,]{2,})\b`
searched over the original-case text; `group(1)` is returned. -/

/-- The prefix alternatives, each a list of literals joined by `\s+`. -/
def locPrefixes : List (List String) :=
  [["my", "location", "is"], ["location", "is"], ["currently", "in"],
   ["in"], ["at"], ["near"], ["around"], ["by"], ["on"]]

/-- Case-insensitive literal sequence joined by `\s+`; returns the rest. -/
def matchSeqCI : List String → List Char → Option (List Char)
  | [], cs => some cs
  | [w], cs => matchLitCI w.data cs
  | w :: ws, cs =>
    match matchLitCI w.data cs with
    | none => none
    | some r =>
      match takeSpaces1 r with
      | none => none
      | some (_, r2) => matchSeqCI ws r2

/-- Characters of the capture class `[\w\-\s,]`. -/
def isLocClassChar (c : Char) : Bool :=
  isWordChar c || c = '-' || isPySpace c || c = ','

/-- The capture `([A-Za-z][\w\-\s,]{2,})` followed by `\b`: greedy run,
backtracking to the longest end position with a word boundary. -/
def locGroup (cs : List Char) : Option (List Char) :=
  match cs with
  | c0 :: rest =>
    if isAsciiAlpha c0 then
      let run := rest.takeWhile isLocClassChar
      let rest2 := rest.dropWhile isLocClassChar
      (((List.range (run.length + 1)).reverse).filter (fun k => 2 ≤ k)).findSome?
        (fun k =>
          if boundAfter ((run.take k).getLastD c0) (run.drop k ++ rest2) then
            some (c0 :: run.take k)
          else none)
    else none
  | [] => none

/-- The full location pattern at one position. -/
def locAt (prev : Option Char) (cs : List Char) : Option (List Char) :=
  if !boundaryAt prev cs then none
  else
    locPrefixes.findSome? (fun alt =>
      match matchSeqCI alt cs with
      | none => none
      | some r =>
        match takeSpaces1 r with
        | none => none
        | some (_, r2) => locGroup r2)

/-- `re.search` of the location pattern; returns `group(1)`. -/
def locSearch (s : String) : Option String :=
  (searchFrom locAt none s.data).map String.mk

/-! ## Configuration (`os.getenv` flags)

The engine reads two environment flags.  `Env` holds their raw string
values (the `os.getenv(…, "true")` defaults are the structure defaults). -/

structure Env where
  slotHeuristicsEnabled : String := "true"
  slotTextTemplatesEnabled : String := "true"
  deriving Repr, DecidableEq

/-- `str(value).lower() in ("0", "false", "no")`. -/
def envFlagDisabled (v : String) : Bool :=
  pyLower v = "0" || pyLower v = "false" || pyLower v = "no"

def defaultEnv : Env := {}

/-! ## `services/slot_memory.py` -/

/-- `SLOT_KEYS` (slot_memory.py lines 6-12). -/
def SLOT_KEYS : List String :=
  ["driver_status", "current_location", "eta", "emergency_type", "emergency_location"]

/-- The partial slot map returned by `extract_slots`: an insertion-ordered
dict with plain string values. -/
abbrev SlotUpdates := List (String × String)

/-- Lookup in a `SlotUpdates` dict (`dict.get`). -/
def lookupStr (d : SlotUpdates) (k : String) : Option String :=
  (d.find? (fun p => p.1 = k)).map (·.2)

/-- Emergency-context keywords of `extract_slots` (line 33). -/
def extractEmergencyWords : List String :=
  ["emergency", "accident", "crash", "injury", "medical", "breakdown", "fire"]

/-- The misspelling table of `slot_memory.py` line 45. -/
def slotMisspellTable : List (String × String) :=
  [("moutan", "Multan"), ("mudan", "Multan"), ("muzan", "Multan"),
   ("muntan", "Multan"), ("lahar", "Lahore")]

/-- `for a, b in tbl: if a.lower() in loc.lower(): loc = b`. -/
def misspellFold (tbl : List (String × String)) (loc : String) : String :=
  tbl.foldl
    (fun l p => if pyIn (pyLower p.1) (pyLower l) then p.2 else l) loc

/-- The ETA branch of `extract_slots` (lines 52-64): `some (eta value)` in
exactly the cases the `if`/`elif` chain assigns `slots["eta"]`. -/
def etaPick (lowerText : String) : Option String :=
  match etaDigitSearch lowerText with
  | some m => some m
  | none =>
    match etaWordSearch lowerText, etaDaySearch lowerText with
    | some w, some d => some (d ++ " " ++ w)
    | some w, none => some w
    | none, _ => etaRelSearch lowerText

/-- The status branch of `extract_slots` (lines 27-31): first keyword
contained in the utterance, capitalized. -/
def extractStatusPart (lowerText : String) : SlotUpdates :=
  match ["driving", "delayed", "arrived", "dispatched", "stopped", "waiting"].find?
      (fun st => pyIn st lowerText) with
  | some st => [("driver_status", pyCapitalize st)]
  | none => []

/-- The emergency-type branch of `extract_slots` (lines 32-38). -/
def extractEmergPart (lowerText : String) : SlotUpdates :=
  if extractEmergencyWords.any (fun k => pyIn k lowerText) then
    match ["accident", "breakdown", "medical", "fire", "other"].find?
        (fun e => pyIn e lowerText) with
    | some e => [("emergency_type", pyCapitalize e)]
    | none => []
  else []

/-- The `loc` local of the location branch (lines 43-47): the captured
group stripped, dot-rstripped and passed through the misspelling table. -/
@[irreducible] def slotLocValue (g : String) : String :=
  misspellFold slotMisspellTable (pyRstrip ['.'] (pyStrip g))

/-- The location branch of `extract_slots` (lines 40-51), searched over
the original-case text; the location mirrors into `emergency_location`
when emergency-context words are present. -/
def extractLocPart (text lowerText : String) : SlotUpdates :=
  match locSearch text with
  | some g =>
    if extractEmergencyWords.any (fun k => pyIn k lowerText) then
      [("current_location", slotLocValue g), ("emergency_location", slotLocValue g)]
    else [("current_location", slotLocValue g)]
  | none => []

/-- The ETA branch of `extract_slots` (lines 52-64). -/
def extractEtaPart (lowerText : String) : SlotUpdates :=
  match etaPick lowerText with
  | some m => [("eta", m)]
  | none => []

/-- `extract_slots` (slot_memory.py lines 15-65). -/
def extract_slots (env : Env) (text : String) : SlotUpdates :=
  if text = "" then []
  else if envFlagDisabled env.slotHeuristicsEnabled then []
  else
    let lower_text := pyLower text
    extractStatusPart lower_text ++ extractEmergPart lower_text ++
      extractLocPart text lower_text ++ extractEtaPart lower_text

/-! ### Slot memory store (`db.py`)

`InMemoryDB.update_slot_memory` (db.py lines 154-161) and
`SupabaseDB.update_slot_memory` (lines 371-378) have textually identical
bodies; both are embedded by `update_slot_memory` below.  A per-call slot
memory is a dict whose values may be `None`. -/

abbrev SlotDict := List (String × Option String)

/-- First-match dict lookup; `none` for a missing key (like `dict.get`). -/
def dictGet (d : SlotDict) (k : String) : Option String :=
  match d.find? (fun p => p.1 = k) with
  | some p => p.2
  | none => none

/-- `d[k] = v`: replace in place if the key exists, else append. -/
def dictSet (d : SlotDict) (k : String) (v : Option String) : SlotDict :=
  if d.any (fun p => p.1 = k) then
    d.map (fun p => if p.1 = k then (k, v) else p)
  else d ++ [(k, v)]

/-- The lazily created all-`None` slot memory (db.py lines 145-152). -/
def defaultSlotMemory : SlotDict :=
  [("driver_status", none), ("current_location", none), ("eta", none),
   ("emergency_type", none), ("emergency_location", none)]

/-- `update_slot_memory` (db.py 154-161 and 371-378): copy the current
dict, then assign each update whose value is neither `None` nor `""`. -/
def update_slot_memory (current : SlotDict) (updates : List (String × Option String)) :
    SlotDict :=
  updates.foldl
    (fun m kv =>
      match kv.2 with
      | some v => if v ≠ "" then dictSet m kv.1 (some v) else m
      | none => m)
    current

/-- View a heuristic `SlotUpdates` dict as an update payload. -/
def toUpdates (u : SlotUpdates) : List (String × Option String) :=
  u.map (fun p => (p.1, some p.2))

/-- `get_missing_slots` (slot_memory.py lines 68-74): the `SLOT_KEYS`, in
order, whose value is `None` or `""`. -/
def get_missing_slots (current : SlotDict) : List String :=
  SLOT_KEYS.filter (fun k =>
    match dictGet current k with
    | none => true
    | some v => v = "")

/-- `build_followup_for_missing` (slot_memory.py lines 77-96). -/
def build_followup_for_missing (env : Env) (missing : List String) : String :=
  if envFlagDisabled env.slotTextTemplatesEnabled then ""
  else if missing = [] then "Thanks. Anything else you want to add?"
  else if missing.contains "driver_status" then "Got it. What\x27s your current status?"
  else if missing.contains "current_location" then "Thanks. Where are you right now?"
  else if missing.contains "eta" then "Noted. What\x27s your ETA?"
  else if missing.contains "emergency_type" then "Understood. What type of emergency is it?"
  else if missing.contains "emergency_location" then "Where exactly is the emergency?"
  else "Okay, could you share a bit more?"

/-- `polite_end_from_slots` (slot_memory.py lines 99-115). -/
def polite_end_from_slots (env : Env) (slots : SlotDict) : String :=
  let status := dictGet slots "driver_status"
  let loc := dictGet slots "current_location"
  let eta := dictGet slots "eta"
  let enabled := !envFlagDisabled env.slotTextTemplatesEnabled
  if enabled && pyTruthyOpt status && pyTruthyOpt loc && pyTruthyOpt eta then
    "Thanks for the update — status " ++ getS status ++ ", location " ++ getS loc ++
      ", ETA " ++ getS eta ++ ". Drive safe."
  else
    let etype := dictGet slots "emergency_type"
    let eloc := dictGet slots "emergency_location"
    if enabled then
      if pyTruthyOpt etype && pyTruthyOpt eloc then
        "I have the emergency noted: " ++ getS etype ++ " at " ++ getS eloc ++
          ". A dispatcher will call you immediately."
      else "Thanks for the details. We\x27ll follow up if needed."
    else ""

/-! ## `services/escalation.py` -/

/-- The emergency keyword list (escalation.py lines 3-15). -/
def emergencyKeywords : List String :=
  ["blowout", "accident", "crash", "hit", "medical", "chest pain",
   "ambulance", "bleeding", "i need help", "pulling over", "smoke"]

/-- `detect_emergency_keywords` (escalation.py lines 1-16). -/
def detect_emergency_keywords (text : String) : Bool :=
  let t := pyLower text
  emergencyKeywords.any (fun k => pyIn k t)

/-! ## `services/openai_client.py`: oracle call discipline

A call attempt either returns a decision dict or raises; `none` models a
raise.  `tenacity.retry(wait=wait_exponential(min=1, max=10),
stop=stop_after_attempt(3))` re-invokes the wrapped coroutine until it
succeeds or 3 attempts have been made, then re-raises. -/

/-- A decision dict `{agent_text, action, …}` as consumed by the handlers
(`.get` of absent keys gives `None`). -/
structure Decision where
  agentText : Option String := none
  action : Option String := none
  deriving Repr, DecidableEq

/-- Run a retry-decorated call: `attempts` lists the outcome each
successive underlying invocation would produce; at most `stopAttempts`
are made.  Returns the result (`none` = the exception is re-raised after
exhaustion) and the number of attempts actually made. -/
def retryExec (stopAttempts : Nat) (attempts : List (Option Decision)) :
    Option Decision × Nat :=
  match stopAttempts, attempts with
  | 0, _ => (none, 0)
  | _, [] => (none, 0)
  | n + 1, a :: rest =>
    match a with
    | some d => (some d, 1)
    | none =>
      let r := retryExec n rest
      (r.1, r.2 + 1)

/-- `OpenAIClient.decide_next_action` is decorated with
`stop_after_attempt(3)` (openai_client.py line 74). -/
def decide_next_action_exec (attempts : List (Option Decision)) :
    Option Decision × Nat :=
  retryExec 3 attempts

/-- `OpenAIClient.emergency_protocol` (openai_client.py lines 114-131)
carries no retry decorator: a single attempt is made. -/
def emergency_protocol_exec (attempts : List (Option Decision)) :
    Option Decision × Nat :=
  match attempts with
  | [] => (none, 0)
  | a :: _ => (a, 1)

/-! ## `api/webhook.py`: the webhook turn handler

`retell_webhook`'s speech branch (lines 132-265) for one call.  The call
record, per-call counters, slot memory and conversation state live in
`WebhookState`.  The oracle results a single turn may consume are passed
in a `WebhookOracle` (`none` = the call raises); database operations are
modelled as always succeeding, so the only exceptions reaching the
`except` on line 254 — and the only ones escaping the handler — come
from the oracle. -/

/-- The per-call conversation state dict (db.py lines 164-177). -/
structure ConvState where
  lastPromptedSlot : Option String := none
  promptRetries : Nat := 0
  lastAgentMessage : Option String := none
  deriving Repr, DecidableEq

/-- One call's view of the store, as the webhook handler touches it. -/
structure WebhookState where
  slotMemory : SlotDict := defaultSlotMemory
  conv : ConvState := {}
  noisyCount : Nat := 0
  shortCount : Nat := 0
  callStatus : String := "in_progress"
  escalationFlagged : Bool := false
  transcript : List (String × String) := []
  deriving Repr, DecidableEq

/-- An inbound `speech` / `transcript_update` / `update_only` event's
payload fields, as the handler reads them (webhook.py lines 132-136). -/
structure SpeechEvent where
  eventType : String := "speech"
  interactionType : Option String := none
  text : String
  speaker : String := "driver"
  confidence : Option ℚ := some 1
  deriving Repr, DecidableEq

/-- Oracle results available to one webhook turn. -/
structure WebhookOracle where
  /-- `client.emergency_protocol()` on line 191; `none` = it raises. -/
  emergency : Option Decision := none
  /-- The first `decide_next_action` inside the `try` (lines 218 / 235). -/
  decideA : Option Decision := none
  /-- The `decide_next_action` in the `except` fallback (line 258). -/
  decideB : Option Decision := none
  deriving Repr, DecidableEq

deriving instance DecidableEq for Except

/-- The handler's JSON reply, tagged by branch, carrying the text spoken
via `RetellClient.speak` (if any). -/
inductive WebhookResp where
  | updated
  | continued (spoken : String)
  | followup (spoken : String)
  | ended (spoken : String)
  | escalated (spoken : String)
  | okResp (spoken : String)
  deriving Repr, DecidableEq

/-- The spoken text carried by a webhook reply, if any. -/
def WebhookResp.spoken : WebhookResp → Option String
  | .updated => none
  | .continued s => some s
  | .followup s => some s
  | .ended s => some s
  | .escalated s => some s
  | .okResp s => some s

/-- The update-only guard (webhook.py line 157). -/
def updateOnlyTurn (ev : SpeechEvent) : Bool :=
  ev.eventType = "update_only" || ev.interactionType = some "update_only"

/-- Noise guard (webhook.py line 161):
`(confidence is not None and confidence < 0.5) or ("[inaudible]" in text.lower())`. -/
def noisyTurn (ev : SpeechEvent) : Bool :=
  (match ev.confidence with
   | some c => decide (c < mkRat 1 2)
   | none => false)
  || pyIn "[inaudible]" (pyLower ev.text)

/-- Uncooperative guard (line 175): a driver utterance under 3 words. -/
def shortTurn (ev : SpeechEvent) : Bool :=
  ev.speaker = "driver" && pyWordCount ev.text < 3

/-- Farewell guard (line 204):
`any(k in lower_text for k in ["bye", "goodbye"]) or ("arrived" in lower_text)`. -/
def farewellTurn (lowerText : String) : Bool :=
  pyIn "bye" lowerText || pyIn "goodbye" lowerText || pyIn "arrived" lowerText

/-- The retry-dependent prompt rewrite (webhook.py lines 237-249). -/
def promptForRetries (retries : Nat) (nextSlot : String) (prompt : String) : String :=
  if retries = 1 then
    if nextSlot = "driver_status" then "Thanks. Could you share your current status now?"
    else if nextSlot = "current_location" then "And where are you at the moment?"
    else if nextSlot = "eta" then "When do you expect to arrive?"
    else if nextSlot = "emergency_type" then "What kind of emergency is it?"
    else if nextSlot = "emergency_location" then "Where exactly is the emergency happening?"
    else prompt
  else if 2 ≤ retries then
    "If it\x27s easier, just tell me one thing: your status, location, or ETA."
  else prompt

/-- The `except` fallback of the slot-driven block (webhook.py lines
254-265): one more `decide_next_action`, spoken as-is; `end_call` /
`escalate` actions complete the call. -/
def webhookExceptFallback (o : WebhookOracle) (st : WebhookState) (_text : String) :
    Except String (WebhookState × WebhookResp) :=
  match o.decideB with
  | none => .error "decide_next_action raised"
  | some d =>
    let spoken := pyOr d.agentText "Okay."
    let st :=
      if d.action = some "end_call" || d.action = some "escalate" then
        let st :=
          if d.action = some "escalate" then { st with escalationFlagged := true } else st
        { st with callStatus := "completed" }
      else st
    .ok (st, .okResp spoken)

/-- Lines 139-154 of the speech branch: store the transcript segment,
apply heuristic slot updates and reset retries on a filled prompt. -/
def webhookIngest (env : Env) (st : WebhookState) (ev : SpeechEvent) : WebhookState :=
  -- Line 139: always store the segment for the audit trail.
  let st := { st with transcript := st.transcript ++ [(ev.speaker, ev.text)] }
  -- Lines 142-154: update slot memory and reset retries on a filled prompt.
  if ev.speaker = "driver" && ev.text ≠ "" then
    let slot_updates := extract_slots env ev.text
    let st :=
      if slot_updates ≠ [] then
        { st with slotMemory := update_slot_memory st.slotMemory (toUpdates slot_updates) }
      else st
    match st.conv.lastPromptedSlot with
    | some ls =>
      if ls ≠ "" && pyTruthyOpt (lookupStr slot_updates ls) then
        { st with conv := { st.conv with promptRetries := 0, lastPromptedSlot := none } }
      else st
    | none => st
  else st

/-- Lines 157-265 of the speech branch: choose and emit the response
from the ingested state. -/
def webhookRespond (env : Env) (o : WebhookOracle) (st : WebhookState) (ev : SpeechEvent) :
    Except String (WebhookState × WebhookResp) :=
  -- Line 157: update_only events never synthesize speech.
  if updateOnlyTurn ev then
    .ok (st, .updated)
  -- Lines 161-172: noisy environment handling.
  else if noisyTurn ev then
    let n := st.noisyCount + 1
    let st := { st with noisyCount := n }
    if n ≤ 2 then
      .ok (st, .continued "I didn\x27t catch that, could you please repeat?")
    else
      .ok ({ st with callStatus := "completed" },
        .ended "I am having trouble hearing you, please wait for a human dispatcher to call.")
  -- Lines 175-186: uncooperative handling.
  else if shortTurn ev then
    let n := st.shortCount + 1
    let st := { st with shortCount := n }
    if n = 1 || n = 2 then
      .ok (st, .followup "Could you clarify your status or location?")
    else
      .ok ({ st with callStatus := "completed" },
        .ended "I\x27ll have dispatch follow up shortly. Thank you.")
  -- Lines 189-196: emergency keyword detection.
  else if detect_emergency_keywords ev.text then
    match o.emergency with
    | none => .error "emergency_protocol raised"
    | some resp =>
      match resp.agentText with
      | none => .error "KeyError: agent_text"
      | some spoken =>
        .ok ({ st with escalationFlagged := true, callStatus := "completed" },
          .escalated spoken)
  -- Lines 199-253: slot-driven response.
  else if farewellTurn (pyLower ev.text) then
    .ok ({ st with callStatus := "completed" },
      .ended (polite_end_from_slots env st.slotMemory))
  else if get_missing_slots st.slotMemory = [] then
    if polite_end_from_slots env st.slotMemory ≠ "" then
      .ok ({ st with callStatus := "completed" },
        .ended (polite_end_from_slots env st.slotMemory))
    else
      -- Templates disabled: defer the closing line to the oracle.
      match o.decideA with
      | none => webhookExceptFallback o st ev.text
      | some d =>
        .ok ({ st with callStatus := "completed" },
          .ended (pyOr d.agentText "Thanks, ending the call."))
  else
    let next_slot := (get_missing_slots st.slotMemory).headD ""
    let retries := st.conv.promptRetries
    match
      (if build_followup_for_missing env (get_missing_slots st.slotMemory) = "" then
        -- Templates disabled: let the oracle craft the follow-up.
        match o.decideA with
        | none => none
        | some d => some (pyOr d.agentText "Okay.")
      else some (build_followup_for_missing env (get_missing_slots st.slotMemory))) with
    | none => webhookExceptFallback o st ev.text
    | some prompt1 =>
      let prompt := promptForRetries retries next_slot prompt1
      .ok ({ st with conv :=
              { lastPromptedSlot := some next_slot, promptRetries := retries + 1,
                lastAgentMessage := some prompt } },
        .okResp prompt)

/-- The speech-event branch of `retell_webhook` (webhook.py lines
132-265): ingest, then respond. -/
def webhookSpeech (env : Env) (o : WebhookOracle) (st : WebhookState) (ev : SpeechEvent) :
    Except String (WebhookState × WebhookResp) :=
  webhookRespond env o (webhookIngest env st ev) ev

/-- Process a sequence of speech events (oracle results per turn),
collecting the responses; stops at the first escaping exception. -/
def webhookRun (env : Env) :
    List (WebhookOracle × SpeechEvent) → WebhookState →
    Except String (WebhookState × List WebhookResp)
  | [], st => .ok (st, [])
  | (o, ev) :: rest, st =>
    match webhookSpeech env o st ev with
    | .error e => .error e
    | .ok (st', r) =>
      match webhookRun env rest st' with
      | .error e => .error e
      | .ok (stf, rs) => .ok (stf, r :: rs)

/-! ## `api/llm.py`: the Retell custom-LLM WebSocket turn loop

`retell_custom_llm_ws` keeps per-connection mutable locals (lines 82-88)
alongside the store; both are gathered in `WsState`.  One loop iteration
over a parsed message body (lines 183-605) is `wsTurn`.  Oracle results
and a flag making the slot-store reads of lines 449-461 raise (the only
way the `except` arm at lines 467-485 runs) are passed in `WsOracle`. -/

/-- Per-connection locals plus the store as the WS handler touches it. -/
structure WsState where
  lastResponseIdHandled : Option Nat := none
  lastAgentTextSent : String := ""
  openingSent : Bool := false
  awaitingConfirmation : Bool := false
  dbCallId : String := ""
  capturedStatus : Bool := false
  capturedLocation : Bool := false
  capturedEta : Bool := false
  svStatus : Option String := none
  svLocation : Option String := none
  svEta : Option String := none
  dbSlotMemory : SlotDict := defaultSlotMemory
  dbCallStatus : String := "in_progress"
  dbEscalationFlagged : Bool := false
  dbTranscript : List (String × String) := []
  deriving Repr, DecidableEq

/-- A parsed inbound WS message body, with the fields the loop reads.
Transcript and conversation entries are `(role, content)` pairs. -/
structure WsBody where
  interactionType : Option String := none
  responseId : Option Nat := none
  transcript : List (String × String) := []
  conversation : List (String × String) := []
  deriving Repr, DecidableEq

/-- `emergency_protocol`'s decision dict, with the fields lines 373-384
read; `structuredEmergency = some (et, el)` models a truthy
`structured_emergency` dict whose `.get` values are `et` / `el`. -/
structure EmergencyResp where
  agentText : Option String := none
  action : Option String := none
  structuredEmergency : Option (Option String × Option String) := none
  deriving Repr, DecidableEq

/-- Oracle results (and the modelled store failure) one WS turn may use. -/
structure WsOracle where
  /-- `emergency_protocol()` on line 373; `none` = it raises (caught at 513). -/
  emergency : Option EmergencyResp := none
  /-- The out-of-scope-guard `decide_next_action` (line 502). -/
  decideGuard : Option Decision := none
  /-- First repetition-avoidance `decide_next_action` (line 521). -/
  decideRep1 : Option Decision := none
  /-- Second repetition-avoidance `decide_next_action` (line 529). -/
  decideRep2 : Option Decision := none
  /-- The no-user-text `decide_next_action` (line 511). -/
  decideNoUser : Option Decision := none
  /-- Make the slot-store block (lines 449-461) raise, running the
  `except` arm of lines 467-485. -/
  slotDbFails : Bool := false
  deriving Repr, DecidableEq

/-- What the loop sends back for one message, if anything. -/
structure WsResponseEvent where
  content : String
  endCall : Bool
  responseId : Option Nat
  deriving Repr, DecidableEq

inductive WsOut where
  | pong
  | response (ev : WsResponseEvent)
  deriving Repr, DecidableEq

/-- Affirmative confirmation keywords (llm.py line 358). -/
def wsAffirmWords : List String :=
  ["yes", "yeah", "yep", "correct", "right", "confirm", "confirmed"]

/-- Negative confirmation keywords (llm.py line 363). -/
def wsNegWords : List String := ["no", "nope", "incorrect", "not correct", "wrong"]

/-- Confirmation-pending handling (llm.py lines 356-369).  Returns the
updated state, the provisional `agent_text` and `end_now_affirm`. -/
def wsHandleConfirmation (st : WsState) (lower : String) : WsState × String × Bool :=
  if !st.awaitingConfirmation then (st, "", false)
  else if wsAffirmWords.any (fun w => pyIn w lower) then
    ({ st with awaitingConfirmation := false },
     "Thanks for confirming. Drive safe â€” ending the call.", true)
  else if wsNegWords.any (fun w => pyIn w lower) then
    ({ st with
       awaitingConfirmation := false,
       capturedStatus := false,
       capturedLocation := false,
       capturedEta := false },
     "No problem. What is your current status?", false)
  else (st, "", false)

/-- The WS misspelling table (llm.py line 398) — one entry more than the
extractor's (`muntaan`). -/
def wsMisspellTable : List (String × String) :=
  [("moutan", "Multan"), ("mudan", "Multan"), ("muzan", "Multan"),
   ("muntan", "Multan"), ("muntaan", "Multan"), ("lahar", "Lahore")]

/-- One alternative of the trailing-filler pattern at one position:
`\b(right\s+now|currently|for\s+now)\b\.?$` (llm.py line 404).  Returns
the prefix-preserving match only when it runs to the end of the text. -/
def fillerAt (prev : Option Char) (cs : List Char) : Option Unit :=
  if !boundaryAt prev cs then none
  else
    [["right", "now"], ["currently"], ["for", "now"]].findSome? (fun alt =>
      match matchSeqCI alt cs with
      | none => none
      | some rest =>
        match rest with
        | [] => some ()
        | ['.'] => some ()
        | _ => none)

/-- `re.sub` of the trailing-filler pattern with `""`: drop the matched
end-anchored span (leftmost match position). -/
def removeTrailingFillerAux (acc : List Char) (prev : Option Char) (cs : List Char) :
    Option (List Char) :=
  match fillerAt prev cs with
  | some _ => some acc.reverse
  | none =>
    match cs with
    | [] => none
    | c :: t => removeTrailingFillerAux (c :: acc) (some c) t

def removeTrailingFiller (s : String) : String :=
  match removeTrailingFillerAux [] none s.data with
  | some pre => ⟨pre⟩
  | none => s

/-- Location normalization of the WS path (llm.py lines 396-410):
strip/rstrip, misspelling table, trailing-filler removal, final rstrip. -/
@[irreducible] def wsNormalizeLoc (g : String) : String :=
  let locRaw := pyRstrip ['.'] (pyStrip g)
  let locNorm := misspellFold wsMisspellTable locRaw
  let locNorm := pyStrip (removeTrailingFiller locNorm)
  pyRstrip [' ', ',', '.'] locNorm

/-- The four status words of the WS path (llm.py lines 316/412). -/
def wsStatusWords : List String := ["driving", "delayed", "arrived", "dispatched"]

/-- The capture-recompute ETA cue (llm.py line 320): digit time, `noon`,
`midnight`, `ETA`, relative duration or day word. -/
def wsEtaCue (t : String) : Bool :=
  (etaDigitSearch t).isSome || wordSearch "noon" t || wordSearch "midnight" t ||
    wordSearch "eta" t || (etaRelSearch t).isSome || (etaDaySearch t).isSome

/-- Python `str(None)`/f-string rendering of an optional value. -/
def pyShowOpt (v : Option String) : String :=
  match v with
  | some s => s
  | none => "None"

/-- The `[SLOTS]` memo transcript line (llm.py lines 589-595). -/
def slotsMemoLine (m : SlotDict) : String :=
  "[SLOTS] driver_status=" ++ pyShowOpt (dictGet m "driver_status") ++
    ", current_location=" ++ pyShowOpt (dictGet m "current_location") ++
    ", eta=" ++ pyShowOpt (dictGet m "eta") ++
    ", emergency_type=" ++ pyShowOpt (dictGet m "emergency_type") ++
    ", emergency_location=" ++ pyShowOpt (dictGet m "emergency_location")

/-- Lines 349-355 of the WS loop: update shared slot memory from the
latest user utterance before deciding. -/
def wsIngest (env : Env) (st : WsState) (lu : String) : WsState :=
  if st.dbCallId ≠ "" then
    let updates := extract_slots env lu
    if updates ≠ [] then
      { st with dbSlotMemory := update_slot_memory st.dbSlotMemory (toUpdates updates) }
    else st
  else st

/-- Lines 370-388: the emergency branch of the WS generator. -/
def wsEmergency (o : WsOracle) (st : WsState) (end_now_affirm : Bool) :
    WsState × String × Bool × Option String :=
  match o.emergency with
  | none => (st, "I understand.", end_now_affirm, none)
  | some r =>
    let atext := pyOr r.agentText "A human dispatcher will call you back immediately."
    let st :=
      match r.structuredEmergency with
      | some (et, el) =>
        if st.dbCallId ≠ "" then
          let m := update_slot_memory st.dbSlotMemory
            [("emergency_type", et), ("emergency_location", el)]
          { st with dbSlotMemory := m }
        else st
      | none => st
    let st :=
      if r.action = some "escalate" && st.dbCallId ≠ "" then
        { st with dbEscalationFlagged := true }
      else st
    (st, atext, end_now_affirm, r.action)

/-- Lines 390-446: quick status / location / ETA extraction into the
local capture flags and values. -/
def wsCapture (st : WsState) (lu lower : String) : WsState :=
  let locMatch := locSearch lu
  let st :=
    if wsStatusWords.any (fun w => pyIn w lower) then
      let st := { st with capturedStatus := true }
      if !pyTruthyOpt st.svStatus then
        match ["Driving", "Delayed", "Arrived", "Dispatched"].find?
            (fun w => pyIn (pyLower w) lower) with
        | some w => { st with svStatus := some w }
        | none => st
      else st
    else st
  let st :=
    match locMatch with
    | some g => { st with capturedLocation := true, svLocation := some (wsNormalizeLoc g) }
    | none => st
  let etaDigit := etaDigitSearch lower
  let etaWord := etaWordSearch lower
  let etaRel := etaRelSearch lower
  let etaDay := etaDaySearch lower
  let etaToken := wordSearch "eta" lower
  if etaDigit.isSome || etaWord.isSome || etaRel.isSome ||
      (etaDay.isSome && (etaDigit.isSome || etaWord.isSome)) || etaToken then
    let st := { st with capturedEta := true }
    if !pyTruthyOpt st.svEta then
      match etaDigit with
      | some m => { st with svEta := some m }
      | none =>
        match etaWord, etaDay with
        | some wv, some dv => { st with svEta := some (dv ++ " " ++ wv) }
        | some wv, none => { st with svEta := some wv }
        | none, _ =>
          match etaRel with
          | some rv => { st with svEta := some rv }
          | none => st
    else st
  else st

/-- Lines 447-485: slot-driven questioning on the shared memory (the
`try` arm reconciles captures into the store; the `except` arm falls back
to local heuristic prompts). -/
def wsQuestion (env : Env) (o : WsOracle) (st : WsState) (agent_text : String)
    (end_now_affirm : Bool) : WsState × String × Bool :=
  if o.slotDbFails then
    -- The except arm (lines 467-485): local heuristic prompts.
    let slots_done := st.capturedStatus && st.capturedLocation && st.capturedEta
    if !slots_done then
      if !st.capturedStatus then (st, "Got it. What is your current status?", end_now_affirm)
      else if !st.capturedLocation then (st, "Thanks. Where are you right now?", end_now_affirm)
      else if !st.capturedEta then (st, "Noted. What\x27s your ETA?", end_now_affirm)
      else (st, agent_text, end_now_affirm)
    else if !st.awaitingConfirmation then
      ({ st with awaitingConfirmation := true },
       "Just to confirm, status " ++ pyOr st.svStatus "your status" ++
         ", location " ++ pyOr st.svLocation "your location" ++
         ", ETA " ++ pyOr st.svEta "your ETA" ++ ". Is that correct?",
       end_now_affirm)
    else (st, "Please say yes or no to confirm.", end_now_affirm)
  else
    -- The try arm (lines 449-466): reconcile captures, then decide.
    let shared0 := if st.dbCallId ≠ "" then st.dbSlotMemory else []
    let p1 :=
      if st.capturedStatus && pyTruthyOpt st.svStatus &&
          !pyTruthyOpt (dictGet shared0 "driver_status") then
        let m := update_slot_memory st.dbSlotMemory [("driver_status", st.svStatus)]
        ({ st with dbSlotMemory := m }, m)
      else (st, shared0)
    let st := p1.1
    let shared1 := p1.2
    let p2 :=
      if st.capturedLocation && pyTruthyOpt st.svLocation &&
          !pyTruthyOpt (dictGet shared1 "current_location") then
        let m := update_slot_memory st.dbSlotMemory [("current_location", st.svLocation)]
        ({ st with dbSlotMemory := m }, m)
      else (st, shared1)
    let st := p2.1
    let shared2 := p2.2
    let p3 :=
      if st.capturedEta && pyTruthyOpt st.svEta &&
          !pyTruthyOpt (dictGet shared2 "eta") then
        let m := update_slot_memory st.dbSlotMemory [("eta", st.svEta)]
        ({ st with dbSlotMemory := m }, m)
      else (st, shared2)
    let st := p3.1
    let shared3 := p3.2
    let missing := get_missing_slots shared3
    if missing = [] then (st, polite_end_from_slots env shared3, true)
    else (st, build_followup_for_missing env missing, end_now_affirm)

/-- Lines 487-505: the out-of-scope guard deferring to the oracle. -/
def wsGuard (o : WsOracle) (st : WsState) (agent_text : String) (end_now_affirm : Bool) :
    WsState × String × Bool × Option String :=
  if agent_text = "" || pyStrip agent_text = "Okay." then
    match o.decideGuard with
    | none => (st, agent_text, end_now_affirm, none)
    | some dg =>
      let t := pyOr dg.agentText (if agent_text ≠ "" then agent_text else "Okay.")
      (st, t, end_now_affirm, dg.action)
  else (st, agent_text, end_now_affirm, none)

/-- Response generation (llm.py lines 339-515).  Returns the updated
state, `agent_text`, `end_now_affirm`, and `decision_current`'s action. -/
def wsGenerate (env : Env) (o : WsOracle) (st : WsState) (luOpt : Option String) :
    WsState × String × Bool × Option String :=
  if !pyTruthyOpt luOpt then
    -- Lines 506-512: no new user text; avoid repeating the opening.
    if st.openingSent then
      (st, "Could you share your current status: Driving, Delayed, or Arrived?", false, none)
    else
      match o.decideNoUser with
      | none => (st, "I understand.", false, none)
      | some d => (st, pyOr d.agentText "Hello, how can I help you today?", false, none)
  else
    let lu := getS luOpt
    let lower := pyLower lu
    -- Lines 349-355: update shared slot memory before deciding.
    let st := wsIngest env st lu
    -- Lines 356-369: confirmation-pending handling.
    let c := wsHandleConfirmation st lower
    let st := c.1
    let agent_text := c.2.1
    let end_now_affirm := c.2.2
    -- Lines 370-388: emergency heuristic.
    if detect_emergency_keywords lu then wsEmergency o st end_now_affirm
    else
      -- Lines 390-505: capture, slot-driven questioning, guard.
      let st := wsCapture st lu lower
      let q := wsQuestion env o st agent_text end_now_affirm
      wsGuard o q.1 q.2.1 q.2.2

/-- Repetition avoidance (llm.py lines 517-532).  Returns the final text
and, when `decision_current` was reassigned here, `some` of its action. -/
def wsAvoidRepeat (agentText lastSent : String) (rep1 rep2 : Option Decision) :
    String × Option (Option String) :=
  if pyStrip agentText = pyStrip lastSent then
    match rep1 with
    | none => (agentText, none)
    | some d1 =>
      if pyTruthyOpt d1.agentText && pyStrip (getS d1.agentText) ≠ pyStrip agentText then
        (getS d1.agentText, some d1.action)
      else
        match rep2 with
        | none => (agentText, some d1.action)
        | some d2 => (pyOr d2.agentText agentText, some d2.action)
  else (agentText, none)

/-- Python `l[-3:]`. -/
def pyTail3 (l : List (String × String)) : List (String × String) :=
  l.drop (l.length - 3)

/-- Slot-memory refresh over the transcript tail on non-speaking
messages (llm.py lines 199-212). -/
def wsRefreshFromTranscript (env : Env) (st : WsState) (msgs : List (String × String)) :
    WsState :=
  (pyTail3 msgs).foldl
    (fun st msg =>
      if msg.1 = "user" || msg.1 = "driver" then
        let updates := extract_slots env msg.2
        if updates ≠ [] && st.dbCallId ≠ "" then
          { st with dbSlotMemory := update_slot_memory st.dbSlotMemory (toUpdates updates) }
        else st
      else st) st

/-- Capture recompute over the whole transcript window
(llm.py lines 309-323). -/
def wsRecompute (st : WsState) (msgs : List (String × String)) : WsState :=
  msgs.foldl
    (fun st msg =>
      if msg.1 ≠ "user" then st
      else
        let t := pyLower msg.2
        let st :=
          if wsStatusWords.any (fun w => pyIn w t) then
            { st with capturedStatus := true }
          else st
        let st :=
          if (locSearch t).isSome then { st with capturedLocation := true } else st
        if wsEtaCue t then { st with capturedEta := true } else st) st

/-- The duplicate-turn guard (llm.py lines 214-220). -/
def wsDuplicate (st : WsState) (body : WsBody) : Bool :=
  match body.responseId with
  | some r => r ≠ 0 && st.lastResponseIdHandled = some r
  | none => false

/-- The tail of the speaking branch (llm.py lines 517-606): repetition
avoidance, end conditions, transcript append and completion, applied to
`wsGenerate`'s result `g`. -/
def wsEmit (o : WsOracle) (body : WsBody) (luOpt : Option String)
    (g : WsState × String × Bool × Option String) : WsState × Option WsOut :=
  let st := g.1
  let end_now_affirm := g.2.2.1
  let decAction0 := g.2.2.2
  -- Lines 517-532: avoid sending identical text back-to-back.
  let rep := wsAvoidRepeat g.2.1 st.lastAgentTextSent o.decideRep1 o.decideRep2
  let agent_text := rep.1
  let decAction := match rep.2 with | some a => a | none => decAction0
  -- Lines 544-563: end conditions.
  let lower := pyLower (getS luOpt)
  let end_now :=
    farewellTurn lower || decAction = some "end_call" || decAction = some "escalate"
  let slots_done := st.capturedStatus && st.capturedLocation && st.capturedEta
  let endCall := end_now || end_now_affirm || slots_done
  -- Lines 565-579: send, append the agent utterance, remember id/text.
  let st :=
    if st.dbCallId ≠ "" && agent_text ≠ "" then
      { st with dbTranscript := st.dbTranscript ++ [("agent", agent_text)] }
    else st
  let st := { st with lastResponseIdHandled := body.responseId, lastAgentTextSent := agent_text }
  -- Lines 581-606: on end_call, complete the call and add the memo line.
  let st :=
    if endCall && st.dbCallId ≠ "" then
      { st with
        dbCallStatus := "completed",
        dbTranscript := st.dbTranscript ++ [("agent", slotsMemoLine st.dbSlotMemory)] }
    else st
  (st, some (.response { content := agent_text, endCall := endCall, responseId := body.responseId }))

/-- One iteration of the WS receive loop over a parsed body
(llm.py lines 183-605). -/
def wsTurn (env : Env) (o : WsOracle) (st : WsState) (body : WsBody) :
    WsState × Option WsOut :=
  -- Lines 190-196: ping_pong echo.
  if body.interactionType = some "ping_pong" then (st, some .pong)
  else if body.interactionType ≠ some "response_required" &&
      body.interactionType ≠ some "reminder_required" then
    -- Lines 199-212: non-speaking message; refresh slot memory only.
    (wsRefreshFromTranscript env st body.transcript, none)
  else if wsDuplicate st body then
    -- Lines 214-220: duplicate response_id → ignored.
    (st, none)
  else
    -- Lines 279-298: last user utterance; persist it to the transcript.
    let lu0 : Option String := (body.transcript.reverse.find? (fun m => m.1 = "user")).map (·.2)
    let st :=
      if body.transcript ≠ [] && st.dbCallId ≠ "" && pyTruthyOpt lu0 then
        { st with dbTranscript := st.dbTranscript ++ [("driver", getS lu0)] }
      else st
    -- Lines 309-323: recompute slot capture from the transcript window.
    let st := if body.transcript ≠ [] then wsRecompute st body.transcript else st
    -- Lines 326-330: fall back to the conversation array.
    let luOpt :=
      if pyTruthyOpt lu0 then lu0
      else (body.conversation.reverse.find? (fun m => m.1 = "user")).map (·.2)
    -- Lines 339-606: generate the response and finish the turn.
    wsEmit o body luOpt (wsGenerate env o st luOpt)

/-! # Supporting lemmas -/

theorem pyTruthyOpt_iff (o : Option String) :
    pyTruthyOpt o = true ↔ ∃ v, o = some v ∧ v ≠ "" := by
  cases o <;> simp [pyTruthyOpt]

theorem dictGet_cons (a : String × Option String) (t : SlotDict) (k : String) :
    dictGet (a :: t) k = if a.1 = k then a.2 else dictGet t k := by
  unfold dictGet
  by_cases h : a.1 = k
  · rw [List.find?_cons_of_pos _ (by simpa using h), if_pos h]
  · rw [List.find?_cons_of_neg _ (by simpa using h), if_neg h]

theorem dictGet_map_replace_self (m : SlotDict) (k : String) (v : Option String)
    (hany : m.any (fun p => p.1 = k) = true) :
    dictGet (m.map (fun p => if p.1 = k then (k, v) else p)) k = v := by
  induction m with
  | nil => simp at hany
  | cons a t ih =>
    by_cases hk : a.1 = k
    · simp only [List.map_cons, if_pos hk]
      rw [dictGet_cons, if_pos rfl]
    · have hany' : t.any (fun p => p.1 = k) = true := by simpa [hk] using hany
      simp only [List.map_cons, if_neg hk]
      rw [dictGet_cons, if_neg hk]
      exact ih hany'

theorem dictGet_map_replace_ne (m : SlotDict) (k k' : String) (v : Option String)
    (h : k' ≠ k) :
    dictGet (m.map (fun p => if p.1 = k' then (k', v) else p)) k = dictGet m k := by
  induction m with
  | nil => rfl
  | cons a t ih =>
    by_cases hk : a.1 = k'
    · have hak : ¬a.1 = k := by rw [hk]; exact h
      simp only [List.map_cons, if_pos hk]
      rw [dictGet_cons, dictGet_cons, if_neg h, if_neg hak]
      exact ih
    · simp only [List.map_cons, if_neg hk]
      rw [dictGet_cons, dictGet_cons]
      by_cases hak : a.1 = k
      · rw [if_pos hak, if_pos hak]
      · rw [if_neg hak, if_neg hak]
        exact ih

theorem find?_no_key (m : SlotDict) (k : String)
    (hany : m.any (fun p => p.1 = k) = false) :
    m.find? (fun p => p.1 = k) = none := by
  induction m with
  | nil => rfl
  | cons a t ih =>
    rw [List.any_cons] at hany
    rcases Bool.or_eq_false_iff.mp hany with ⟨h1, h2⟩
    rw [List.find?_cons_of_neg _ (by simpa using h1)]
    exact ih h2

theorem dictGet_append_single (m : SlotDict) (k k' : String) (v : Option String) :
    dictGet (m ++ [(k', v)]) k =
      if m.any (fun p => p.1 = k) then dictGet m k
      else if k' = k then v else none := by
  unfold dictGet
  rw [List.find?_append]
  by_cases hany : m.any (fun p => p.1 = k) = true
  · rw [if_pos hany]
    rcases h : m.find? (fun p => p.1 = k) with _ | p
    · rw [List.find?_eq_none] at h
      rw [List.any_eq_true] at hany
      rcases hany with ⟨x, hx, hpx⟩
      exact absurd hpx (h x hx)
    · rw [h]
      rfl
  · rw [if_neg hany, find?_no_key m k (Bool.eq_false_iff.mpr hany)]
    by_cases hk : k' = k
    · simp [List.find?, hk]
    · simp [List.find?, hk]

theorem dictGet_dictSet_self (m : SlotDict) (k : String) (v : Option String) :
    dictGet (dictSet m k v) k = v := by
  unfold dictSet
  split
  · rename_i hany
    exact dictGet_map_replace_self m k v hany
  · rename_i hany
    rw [dictGet_append_single, if_neg (by simpa using hany), if_pos rfl]

theorem dictGet_dictSet_ne (m : SlotDict) (k k' : String) (v : Option String)
    (h : k' ≠ k) : dictGet (dictSet m k' v) k = dictGet m k := by
  unfold dictSet
  split
  · exact dictGet_map_replace_ne m k k' v h
  · rw [dictGet_append_single]
    by_cases hany : m.any (fun p => p.1 = k) = true
    · rw [if_pos hany]
    · rw [if_neg hany, if_neg h]
      unfold dictGet
      rw [find?_no_key m k (Bool.eq_false_iff.mpr hany)]

/-- Steps of the `update_slot_memory` fold: `None` and `""` values are
skipped; other values are stored. -/
theorem update_slot_memory_cons_none (m : SlotDict) (k1 : String)
    (us : List (String × Option String)) :
    update_slot_memory m ((k1, none) :: us) = update_slot_memory m us := rfl

theorem update_slot_memory_cons_empty (m : SlotDict) (k1 : String)
    (us : List (String × Option String)) :
    update_slot_memory m ((k1, some "") :: us) = update_slot_memory m us := rfl

theorem update_slot_memory_cons_some (m : SlotDict) (k1 : String) (v : String)
    (us : List (String × Option String)) (h : v ≠ "") :
    update_slot_memory m ((k1, some v) :: us) =
      update_slot_memory (dictSet m k1 (some v)) us := by
  show update_slot_memory (if v ≠ "" then dictSet m k1 (some v) else m) us = _
  rw [if_pos h]

/-- A single `update_slot_memory` either leaves a key alone or stores a
non-empty value there. -/
theorem update_slot_memory_get (m : SlotDict) (us : List (String × Option String))
    (k : String) :
    dictGet (update_slot_memory m us) k = dictGet m k ∨
      ∃ v', dictGet (update_slot_memory m us) k = some v' ∧ v' ≠ "" := by
  induction us generalizing m with
  | nil => exact Or.inl rfl
  | cons kv us ih =>
    obtain ⟨k1, v1⟩ := kv
    rcases v1 with _ | v
    · rw [update_slot_memory_cons_none]
      exact ih m
    · by_cases hne : v = ""
      · subst hne
        rw [update_slot_memory_cons_empty]
        exact ih m
      · rw [update_slot_memory_cons_some m k1 v us hne]
        by_cases hk : k1 = k
        · subst hk
          rcases ih (dictSet m k1 (some v)) with h | h
          · rw [h, dictGet_dictSet_self]
            exact Or.inr ⟨v, rfl, hne⟩
          · exact Or.inr h
        · rcases ih (dictSet m k1 (some v)) with h | h
          · rw [h, dictGet_dictSet_ne m k k1 _ hk]
            exact Or.inl rfl
          · exact Or.inr h

/-- Monotone-fill preservation for one update. -/
theorem update_slot_memory_truthy (m : SlotDict) (us : List (String × Option String))
    (k : String) (h : pyTruthyOpt (dictGet m k) = true) :
    pyTruthyOpt (dictGet (update_slot_memory m us) k) = true := by
  rcases update_slot_memory_get m us k with heq | ⟨v', hg, hv⟩
  · rw [heq]; exact h
  · rw [hg]; simpa [pyTruthyOpt] using hv

/-! # Claims -/

/-- C3.  Monotonic fill invariant: `update_slot_memory` (identical in
`InMemoryDB` and `SupabaseDB`) overwrites a field only with a non-empty
new value, so over any sequence of updates a slot holding a non-null,
non-empty value keeps a non-null, non-empty value. -/
theorem C3_monotonic_fill :
    (∀ (m : SlotDict) (us : List (String × Option String)) (k : String),
        dictGet (update_slot_memory m us) k = dictGet m k ∨
          ∃ v', dictGet (update_slot_memory m us) k = some v' ∧ v' ≠ "") ∧
    (∀ (m : SlotDict) (seq : List (List (String × Option String))) (k v : String),
        dictGet m k = some v → v ≠ "" →
          ∃ v', dictGet (seq.foldl update_slot_memory m) k = some v' ∧ v' ≠ "") := by
  refine ⟨update_slot_memory_get, ?_⟩
  intro m seq k v hget hne
  have key : ∀ (s : List (List (String × Option String))) (m0 : SlotDict),
      pyTruthyOpt (dictGet m0 k) = true →
      pyTruthyOpt (dictGet (s.foldl update_slot_memory m0) k) = true := by
    intro s
    induction s with
    | nil => intro m0 h; exact h
    | cons us s ih => intro m0 h; exact ih _ (update_slot_memory_truthy m0 us k h)
  exact (pyTruthyOpt_iff _).mp (key seq m (by simp [hget, pyTruthyOpt, hne]))

/-- C3, witnessed: `driver_status = "Driving"` survives an update
sequence that tries to null and empty it and fills other slots. -/
theorem C3_monotonic_fill_witness :
    ∃ v', dictGet
        ([[("driver_status", none), ("eta", some "5pm")],
          [("driver_status", some ""), ("current_location", some "Multan")]].foldl
          update_slot_memory
          [("driver_status", some "Driving"), ("current_location", none), ("eta", none),
           ("emergency_type", none), ("emergency_location", none)])
        "driver_status" = some v' ∧ v' ≠ "" :=
  C3_monotonic_fill.2 _ _ _ "Driving" (by decide) (by decide)

/-- C7.  Config gating: with `SLOT_HEURISTICS_ENABLED` disabled,
`extract_slots` returns the empty map for every input; with
`SLOT_TEXT_TEMPLATES_ENABLED` disabled, `build_followup_for_missing` and
`polite_end_from_slots` return the empty string for every input. -/
theorem C7_config_gating :
    (∀ env : Env, envFlagDisabled env.slotHeuristicsEnabled = true →
        ∀ text, extract_slots env text = []) ∧
    (∀ env : Env, envFlagDisabled env.slotTextTemplatesEnabled = true →
        (∀ missing, build_followup_for_missing env missing = "") ∧
        (∀ slots, polite_end_from_slots env slots = "")) := by
  refine ⟨?_, ?_⟩
  · intro env h text
    unfold extract_slots
    simp [h]
  · intro env h
    constructor
    · intro missing
      unfold build_followup_for_missing
      simp [h]
    · intro slots
      unfold polite_end_from_slots
      simp [h]

/-- C7, witnessed at disabled flag values `"false"` and `"no"` on inputs
the enabled path would have answered. -/
theorem C7_config_gating_witness :
    extract_slots { slotHeuristicsEnabled := "false" } "i am driving near Multan, eta 5pm" = [] ∧
    build_followup_for_missing { slotTextTemplatesEnabled := "no" } ["driver_status"] = "" ∧
    polite_end_from_slots { slotTextTemplatesEnabled := "no" }
      [("driver_status", some "Driving"), ("current_location", some "Multan"),
       ("eta", some "5pm")] = "" :=
  ⟨C7_config_gating.1 _ (by decide) _,
   (C7_config_gating.2 _ (by decide)).1 _,
   (C7_config_gating.2 _ (by decide)).2 _⟩

theorem lookupStr_append_of_none (a b : SlotUpdates) (k : String)
    (h : lookupStr a k = none) : lookupStr (a ++ b) k = lookupStr b k := by
  unfold lookupStr at h ⊢
  rcases hf : List.find? (fun p => p.1 = k) a with _ | p
  · rw [List.find?_append, hf]
    rfl
  · rw [hf] at h
    simp at h

theorem lookupStr_no_key (a : SlotUpdates) (k : String)
    (h : ∀ p ∈ a, p.1 ≠ k) : lookupStr a k = none := by
  unfold lookupStr
  have hf : List.find? (fun p => p.1 = k) a = none :=
    List.find?_eq_none.mpr (fun x hx => by simpa using h x hx)
  rw [hf]
  rfl

theorem extractStatusPart_keys (lt : String) :
    ∀ p ∈ extractStatusPart lt, p.1 = "driver_status" := by
  intro p hp
  unfold extractStatusPart at hp
  split at hp
  · rw [List.mem_singleton] at hp
    rw [hp]
  · simp at hp

theorem extractEmergPart_keys (lt : String) :
    ∀ p ∈ extractEmergPart lt, p.1 = "emergency_type" := by
  intro p hp
  unfold extractEmergPart at hp
  split at hp
  · split at hp
    · rw [List.mem_singleton] at hp
      rw [hp]
    · simp at hp
  · simp at hp

theorem extractLocPart_keys (text lt : String) :
    ∀ p ∈ extractLocPart text lt,
      p.1 = "current_location" ∨ p.1 = "emergency_location" := by
  intro p hp
  unfold extractLocPart at hp
  rcases hl : locSearch text with _ | g
  · simp only [hl] at hp
    simp at hp
  · simp only [hl] at hp
    split at hp
    · cases hp with
      | head => exact Or.inl rfl
      | tail _ hp =>
        cases hp with
        | head => exact Or.inr rfl
        | tail _ hp => cases hp
    · cases hp with
      | head => exact Or.inl rfl
      | tail _ hp => cases hp

theorem extractEtaPart_keys (lt : String) :
    ∀ p ∈ extractEtaPart lt, p.1 = "eta" := by
  intro p hp
  unfold extractEtaPart at hp
  split at hp
  · rw [List.mem_singleton] at hp
    rw [hp]
  · simp at hp

/-- When heuristics are enabled, the `eta` entry of `extract_slots` is
exactly the value the ETA `if`/`elif` chain picks. -/
theorem extract_slots_eta_lookup (env : Env) (text : String)
    (hH : envFlagDisabled env.slotHeuristicsEnabled = false) (hne : text ≠ "") :
    lookupStr (extract_slots env text) "eta" = etaPick (pyLower text) := by
  unfold extract_slots
  rw [if_neg hne, if_neg (by simp [hH])]
  have hkeys : ∀ p ∈ extractStatusPart (pyLower text) ++ extractEmergPart (pyLower text) ++
      extractLocPart text (pyLower text), p.1 ≠ "eta" := by
    intro p hp
    rcases List.mem_append.mp hp with hp | hp
    · rcases List.mem_append.mp hp with hp | hp
      · rw [extractStatusPart_keys _ p hp]; decide
      · rw [extractEmergPart_keys _ p hp]; decide
    · rcases extractLocPart_keys _ _ p hp with h | h <;> rw [h] <;> decide
  rw [lookupStr_append_of_none _ _ _ (lookupStr_no_key _ _ hkeys)]
  unfold extractEtaPart
  rcases he : etaPick (pyLower text) with _ | m
  · rfl
  · rfl

/-- C8.  ETA pattern precedence: `extract_slots` tries the digit-time
pattern, then word-number + meridiem (combined with a day word when one
matches), then the relative duration, and the first match supplies the
`eta` value verbatim as the matched text. -/
theorem C8_eta_precedence (env : Env) (text : String)
    (hH : envFlagDisabled env.slotHeuristicsEnabled = false) (hne : text ≠ "") :
    (∀ m, etaDigitSearch (pyLower text) = some m →
        lookupStr (extract_slots env text) "eta" = some m) ∧
    (etaDigitSearch (pyLower text) = none →
      (∀ w d, etaWordSearch (pyLower text) = some w →
          etaDaySearch (pyLower text) = some d →
          lookupStr (extract_slots env text) "eta" = some (d ++ " " ++ w)) ∧
      (∀ w, etaWordSearch (pyLower text) = some w →
          etaDaySearch (pyLower text) = none →
          lookupStr (extract_slots env text) "eta" = some w) ∧
      (etaWordSearch (pyLower text) = none →
          lookupStr (extract_slots env text) "eta" = etaRelSearch (pyLower text))) := by
  have hlook := extract_slots_eta_lookup env text hH hne
  refine ⟨?_, fun hd => ⟨?_, ?_, ?_⟩⟩
  · intro m hm
    rw [hlook]
    simp [etaPick, hm]
  · intro w d hw hday
    rw [hlook]
    simp [etaPick, hd, hw, hday]
  · intro w hw hday
    rw [hlook]
    simp [etaPick, hd, hw, hday]
  · intro hw
    rw [hlook]
    simp [etaPick, hd, hw]

/-- C8, witnessed: a digit time wins over a later day word, echoed as
matched. -/
theorem C8_eta_precedence_witness :
    envFlagDisabled defaultEnv.slotHeuristicsEnabled = false ∧
    ("5pm" : String) ≠ "" ∧
    lookupStr (extract_slots defaultEnv "i think 5pm tomorrow works") "eta" = some "5pm" :=
  ⟨by decide, by decide,
   (C8_eta_precedence defaultEnv "i think 5pm tomorrow works" (by decide) (by decide)).1
     "5pm" (by decide)⟩

/-! ### Shape lemmas for the pattern matchers (toward C10) -/

theorem orElse_some {α : Type} (x : Option α) (y : Option α) (m : α)
    (h : (x <|> y) = some m) : x = some m ∨ y = some m := by
  cases x
  · exact Or.inr h
  · exact Or.inl h

theorem strMk_ne_empty (g : List Char) (h : g ≠ []) : (⟨g⟩ : String) ≠ "" :=
  fun hc => h (congrArg String.data hc)

theorem data_eq_nil (s : String) (h : s.data = []) : s = "" := by
  cases s
  simp_all

theorem String_data_append (a b : String) : (a ++ b).data = a.data ++ b.data := rfl

/-- A property of every position match transfers to the search result. -/
theorem searchFrom_prop {P : List Char → Prop}
    (matchAt : Option Char → List Char → Option (List Char))
    (hmatch : ∀ prev cs g, matchAt prev cs = some g → P g) :
    ∀ prev cs g, searchFrom matchAt prev cs = some g → P g := by
  intro prev cs
  induction cs generalizing prev with
  | nil =>
    intro g hg
    unfold searchFrom at hg
    exact hmatch _ _ _ hg
  | cons c t ih =>
    intro g hg
    unfold searchFrom at hg
    rcases hm : matchAt prev (c :: t) with _ | m
    · rw [hm] at hg
      exact ih _ _ hg
    · rw [hm] at hg
      cases hg
      exact hmatch _ _ _ hm

theorem matchMeridiem_ne (acc r g : List Char)
    (h : matchMeridiem acc r = some g) : g ≠ [] := by
  unfold matchMeridiem at h
  split at h
  · split at h
    · cases h
      simp
    · cases h
  · cases h

theorem meridiemTail_ne (ds rest g : List Char)
    (h : meridiemTail ds rest = some g) : g ≠ [] := by
  unfold meridiemTail at h
  rcases orElse_some _ _ _ h with h1 | h1
  · split at h1
    · split at h1
      · exact matchMeridiem_ne _ _ _ h1
      · cases h1
    · cases h1
  · exact matchMeridiem_ne _ _ _ h1

theorem colonTail_ne (ds rest g : List Char)
    (h : colonTail ds rest = some g) : g ≠ [] := by
  unfold colonTail at h
  split at h
  · split at h
    · cases h
      simp
    · cases h
  · cases h

theorem oneTwoDigits_ne (tail : List Char → List Char → Option (List Char))
    (htail : ∀ ds rest g, tail ds rest = some g → g ≠ [])
    (cs g : List Char) (h : oneTwoDigits tail cs = some g) : g ≠ [] := by
  unfold oneTwoDigits at h
  split at h
  · split at h
    · rcases orElse_some _ _ _ h with h1 | h1
      · split at h1
        · split at h1
          · exact htail _ _ _ h1
          · cases h1
        · cases h1
      · exact htail _ _ _ h1
    · cases h
  · cases h

theorem etaDigitAt_ne (prev : Option Char) (cs g : List Char)
    (h : etaDigitAt prev cs = some g) : g ≠ [] := by
  unfold etaDigitAt at h
  split at h
  · cases h
  · rcases orElse_some _ _ _ h with h1 | h1
    · exact oneTwoDigits_ne _ meridiemTail_ne _ _ h1
    · exact oneTwoDigits_ne _ colonTail_ne _ _ h1

theorem etaWordAt_ne (prev : Option Char) (cs g : List Char)
    (h : etaWordAt prev cs = some g) : g ≠ [] := by
  unfold etaWordAt at h
  split at h
  · cases h
  · rcases List.exists_of_findSome?_eq_some h with ⟨w, _, hf⟩
    split at hf
    · cases hf
    · exact meridiemTail_ne _ _ _ hf

theorem etaRelAt_ne (prev : Option Char) (cs g : List Char)
    (h : etaRelAt prev cs = some g) : g ≠ [] := by
  unfold etaRelAt at h
  split at h
  · cases h
  · split at h
    · cases h
    · split at h
      · cases h
      · split at h
        · cases h
        · split at h
          · cases h
          · split at h
            · cases h
            · cases h
              simp

theorem etaDayAt_ne (prev : Option Char) (cs g : List Char)
    (h : etaDayAt prev cs = some g) : g ≠ [] := by
  unfold etaDayAt at h
  split at h
  · cases h
  · rcases List.exists_of_findSome?_eq_some h with ⟨w, hw, hf⟩
    split at hf
    · cases hf
    · split at hf
      · cases hf
        have hall : ∀ x ∈ ["today", "tonight", "tomorrow"], String.data x ≠ [] := by decide
        exact hall w hw
      · cases hf

theorem etaDigitSearch_ne (s m : String) (h : etaDigitSearch s = some m) : m ≠ "" := by
  unfold etaDigitSearch at h
  rcases hs : searchFrom etaDigitAt none s.data with _ | g
  · rw [hs] at h; cases h
  · rw [hs] at h
    cases h
    exact strMk_ne_empty g
      (searchFrom_prop (P := fun g => g ≠ []) etaDigitAt etaDigitAt_ne none s.data g hs)

theorem etaWordSearch_ne (s m : String) (h : etaWordSearch s = some m) : m ≠ "" := by
  unfold etaWordSearch at h
  rcases hs : searchFrom etaWordAt none s.data with _ | g
  · rw [hs] at h; cases h
  · rw [hs] at h
    cases h
    exact strMk_ne_empty g
      (searchFrom_prop (P := fun g => g ≠ []) etaWordAt etaWordAt_ne none s.data g hs)

theorem etaRelSearch_ne (s m : String) (h : etaRelSearch s = some m) : m ≠ "" := by
  unfold etaRelSearch at h
  rcases hs : searchFrom etaRelAt none s.data with _ | g
  · rw [hs] at h; cases h
  · rw [hs] at h
    cases h
    exact strMk_ne_empty g
      (searchFrom_prop (P := fun g => g ≠ []) etaRelAt etaRelAt_ne none s.data g hs)

theorem str_append_space_ne (d w : String) : d ++ " " ++ w ≠ "" := by
  intro hc
  have hd := congrArg String.data hc
  rw [String_data_append, String_data_append] at hd
  simp at hd

theorem etaPick_ne (lt m : String) (h : etaPick lt = some m) : m ≠ "" := by
  unfold etaPick at h
  split at h
  · cases h
    exact etaDigitSearch_ne lt m (by assumption)
  · split at h
    · cases h
      exact str_append_space_ne _ _
    · cases h
      exact etaWordSearch_ne lt m (by assumption)
    · exact etaRelSearch_ne lt m h

/-! ### Shape of the captured location (toward C10) -/

theorem locGroup_shape (cs g : List Char) (h : locGroup cs = some g) :
    ∃ c t, g = c :: t ∧ isAsciiAlpha c = true := by
  unfold locGroup at h
  split at h
  · rename_i c0 rest
    split at h
    · rcases List.exists_of_findSome?_eq_some h with ⟨k, _, hf⟩
      split at hf
      · cases hf
        exact ⟨c0, _, rfl, by assumption⟩
      · cases hf
    · cases h
  · cases h

theorem locAt_shape (prev : Option Char) (cs g : List Char)
    (h : locAt prev cs = some g) : ∃ c t, g = c :: t ∧ isAsciiAlpha c = true := by
  unfold locAt at h
  split at h
  · cases h
  · rcases List.exists_of_findSome?_eq_some h with ⟨alt, _, hf⟩
    split at hf
    · cases hf
    · split at hf
      · cases hf
      · exact locGroup_shape _ _ hf

theorem locSearch_shape (s g : String) (h : locSearch s = some g) :
    ∃ c t, g.data = c :: t ∧ isAsciiAlpha c = true := by
  unfold locSearch at h
  rcases hs : searchFrom locAt none s.data with _ | gl
  · rw [hs] at h; cases h
  · rw [hs] at h
    cases h
    exact searchFrom_prop (P := fun g => ∃ c t, g = c :: t ∧ isAsciiAlpha c = true)
      locAt locAt_shape none s.data gl hs

theorem alpha_char_props (c : Char) (h : isAsciiAlpha c = true) :
    isPySpace c = false ∧ (['.'].contains c) = false ∧ ([' ', ',', '.'].contains c) = false := by
  refine ⟨?_, ?_, ?_⟩
  · by_contra hs
    rw [Bool.not_eq_false] at hs
    unfold isPySpace at hs
    simp only [Bool.or_eq_true, decide_eq_true_eq] at hs
    rcases hs with ((((h1 | h1) | h1) | h1) | h1) | h1 <;> subst h1 <;>
      exact absurd h (by decide)
  · by_contra hs
    rw [Bool.not_eq_false, List.contains_eq_any_beq, List.any_eq_true] at hs
    obtain ⟨x, hx, hbeq⟩ := hs
    rw [beq_iff_eq] at hbeq
    subst hbeq
    simp only [List.mem_cons, List.not_mem_nil, or_false] at hx
    subst hx
    exact absurd h (by decide)
  · by_contra hs
    rw [Bool.not_eq_false, List.contains_eq_any_beq, List.any_eq_true] at hs
    obtain ⟨x, hx, hbeq⟩ := hs
    rw [beq_iff_eq] at hbeq
    subst hbeq
    simp only [List.mem_cons, List.not_mem_nil, or_false] at hx
    rcases hx with h1 | h1 | h1 <;> subst h1 <;> exact absurd h (by decide)

theorem dropTrailing_head (P : Char → Bool) (c : Char) (t : List Char)
    (hc : P c = false) : ∃ t', ((c :: t).reverse.dropWhile P).reverse = c :: t' := by
  rw [List.reverse_cons, List.dropWhile_append]
  split
  · refine ⟨[], ?_⟩
    rw [List.dropWhile_cons]
    rw [hc]
    simp
  · exact ⟨(t.reverse.dropWhile P).reverse, by rw [List.reverse_append]; simp⟩

theorem pyStrip_head (s : String) (c : Char) (t : List Char)
    (hd : s.data = c :: t) (hc : isPySpace c = false) :
    ∃ t', (pyStrip s).data = c :: t' := by
  unfold pyStrip
  rw [hd, List.dropWhile_cons, hc]
  simpa using dropTrailing_head isPySpace c t hc

theorem pyRstrip_head (cs : List Char) (s : String) (c : Char) (t : List Char)
    (hd : s.data = c :: t) (hc : cs.contains c = false) :
    ∃ t', (pyRstrip cs s).data = c :: t' := by
  unfold pyRstrip
  rw [hd]
  simpa using dropTrailing_head (fun x => cs.contains x) c t hc

theorem misspellFold_cases (tbl : List (String × String)) (l : String) :
    misspellFold tbl l = l ∨ ∃ p ∈ tbl, misspellFold tbl l = p.2 := by
  induction tbl generalizing l with
  | nil => exact Or.inl rfl
  | cons p tbl ih =>
    have hstep : misspellFold (p :: tbl) l =
        misspellFold tbl (if pyIn (pyLower p.1) (pyLower l) then p.2 else l) := rfl
    rw [hstep]
    split
    · rcases ih p.2 with h | ⟨q, hq, h⟩
      · rw [h]
        exact Or.inr ⟨p, List.mem_cons_self p tbl, rfl⟩
      · exact Or.inr ⟨q, List.mem_cons_of_mem p hq, h⟩
    · rcases ih l with h | ⟨q, hq, h⟩
      · exact Or.inl h
      · exact Or.inr ⟨q, List.mem_cons_of_mem p hq, h⟩

/-- The normalized location value of `extract_slots` is never empty. -/
theorem locValue_ne (text g : String) (h : locSearch text = some g) :
    slotLocValue g ≠ "" := by
  unfold slotLocValue
  rcases locSearch_shape text g h with ⟨c, t, hd, halpha⟩
  rcases alpha_char_props c halpha with ⟨hsp, hdot, _⟩
  rcases pyStrip_head g c t hd hsp with ⟨t1, h1⟩
  rcases pyRstrip_head ['.'] (pyStrip g) c t1 h1 hdot with ⟨t2, h2⟩
  rcases misspellFold_cases slotMisspellTable (pyRstrip ['.'] (pyStrip g)) with hm | ⟨p, hp, hm⟩
  · rw [hm]
    intro hc
    rw [hc] at h2
    cases h2
  · rw [hm]
    have : ∀ q ∈ slotMisspellTable, q.2 ≠ "" := by decide
    exact this p hp

theorem pyCapitalize_ne (s : String) (h : s ≠ "") : pyCapitalize s ≠ "" := by
  unfold pyCapitalize
  rcases hd : s.data with _ | ⟨c, t⟩
  · exact absurd (data_eq_nil s hd) h
  · exact strMk_ne_empty _ (by simp)

theorem extractStatusPart_wf (lt : String) :
    ∀ p ∈ extractStatusPart lt, p.1 ∈ SLOT_KEYS ∧ p.2 ≠ "" := by
  intro p hp
  unfold extractStatusPart at hp
  split at hp
  · rename_i st hfind
    rw [List.mem_singleton] at hp
    subst hp
    refine ⟨show ("driver_status" : String) ∈ SLOT_KEYS by decide, ?_⟩
    have hmem := List.mem_of_find?_eq_some hfind
    have hall : ∀ x ∈ ["driving", "delayed", "arrived", "dispatched", "stopped", "waiting"],
        x ≠ "" := by decide
    exact pyCapitalize_ne st (hall st hmem)
  · simp at hp

theorem extractEmergPart_wf (lt : String) :
    ∀ p ∈ extractEmergPart lt, p.1 ∈ SLOT_KEYS ∧ p.2 ≠ "" := by
  intro p hp
  unfold extractEmergPart at hp
  split at hp
  · split at hp
    · rename_i e hfind
      rw [List.mem_singleton] at hp
      subst hp
      refine ⟨show ("emergency_type" : String) ∈ SLOT_KEYS by decide, ?_⟩
      have hmem := List.mem_of_find?_eq_some hfind
      have hall : ∀ x ∈ ["accident", "breakdown", "medical", "fire", "other"],
          x ≠ "" := by decide
      exact pyCapitalize_ne e (hall e hmem)
    · simp at hp
  · simp at hp

theorem extractLocPart_wf (text lt : String) :
    ∀ p ∈ extractLocPart text lt, p.1 ∈ SLOT_KEYS ∧ p.2 ≠ "" := by
  intro p hp
  unfold extractLocPart at hp
  rcases hl : locSearch text with _ | g
  · simp [hl] at hp
  · simp only [hl] at hp
    have hv := locValue_ne text g hl
    split at hp
    · cases hp with
      | head => exact ⟨show ("current_location" : String) ∈ SLOT_KEYS by decide, hv⟩
      | tail _ hp =>
        cases hp with
        | head => exact ⟨show ("emergency_location" : String) ∈ SLOT_KEYS by decide, hv⟩
        | tail _ hp => cases hp
    · cases hp with
      | head => exact ⟨show ("current_location" : String) ∈ SLOT_KEYS by decide, hv⟩
      | tail _ hp => cases hp

theorem extractEtaPart_wf (lt : String) :
    ∀ p ∈ extractEtaPart lt, p.1 ∈ SLOT_KEYS ∧ p.2 ≠ "" := by
  intro p hp
  unfold extractEtaPart at hp
  split at hp
  · rename_i m hpick
    rw [List.mem_singleton] at hp
    subst hp
    exact ⟨show ("eta" : String) ∈ SLOT_KEYS by decide, etaPick_ne lt m hpick⟩
  · simp at hp

theorem extractLocPart_pair (text lt : String) (v : String)
    (hp : ("emergency_location", v) ∈ extractLocPart text lt) :
    ("current_location", v) ∈ extractLocPart text lt := by
  unfold extractLocPart at hp ⊢
  rcases hl : locSearch text with _ | g
  · simp [hl] at hp
  · simp only [hl] at hp ⊢
    split at hp
    · rename_i hctx
      rw [List.mem_cons, List.mem_singleton] at hp
      rcases hp with hp | hp
      · exact absurd (congrArg Prod.fst hp)
          (show ¬("emergency_location" : String) = "current_location" by decide)
      · have hv := congrArg Prod.snd hp
        simp only at hv
        subst hv
        rw [if_pos hctx]
        exact List.mem_cons_self _ _
    · rename_i hctx
      rw [List.mem_singleton] at hp
      exact absurd (congrArg Prod.fst hp)
          (show ¬("emergency_location" : String) = "current_location" by decide)

/-- C10.  Extractor output well-formedness: every key `extract_slots`
returns is one of the five slot names, every value is a non-empty
string, and an `emergency_location` entry always comes with a
`current_location` entry holding the identical value. -/
theorem C10_extract_wellformed (env : Env) (text : String) :
    (∀ k v, (k, v) ∈ extract_slots env text → k ∈ SLOT_KEYS ∧ v ≠ "") ∧
    (∀ v, ("emergency_location", v) ∈ extract_slots env text →
        ("current_location", v) ∈ extract_slots env text) := by
  constructor
  · intro k v hp
    unfold extract_slots at hp
    split at hp
    · cases hp
    · split at hp
      · cases hp
      · rcases List.mem_append.mp hp with hp | hp
        · rcases List.mem_append.mp hp with hp | hp
          · rcases List.mem_append.mp hp with hp | hp
            · exact extractStatusPart_wf _ _ hp
            · exact extractEmergPart_wf _ _ hp
          · exact extractLocPart_wf _ _ _ hp
        · exact extractEtaPart_wf _ _ hp
  · intro v hp
    unfold extract_slots at hp ⊢
    split at hp
    · cases hp
    · split at hp
      · cases hp
      · rename_i h0 h1
        rw [if_neg h0, if_neg h1]
        rcases List.mem_append.mp hp with hp | hp
        · rcases List.mem_append.mp hp with hp | hp
          · rcases List.mem_append.mp hp with hp | hp
            · exact absurd (extractStatusPart_keys _ _ hp)
                (show ¬("emergency_location" : String) = "driver_status" by decide)
            · exact absurd (extractEmergPart_keys _ _ hp)
                (show ¬("emergency_location" : String) = "emergency_type" by decide)
          · exact List.mem_append.mpr (Or.inl (List.mem_append.mpr
              (Or.inr (extractLocPart_pair _ _ v hp))))
        · exact absurd (extractEtaPart_keys _ _ hp)
            (show ¬("emergency_location" : String) = "eta" by decide)

unseal slotLocValue in
/-- C10, witnessed on an utterance filling emergency type and mirrored
location. -/
theorem C10_extract_wellformed_witness :
    ("emergency_location", "Multan") ∈ extract_slots defaultEnv "accident near moutan" ∧
    ("current_location", "Multan") ∈ extract_slots defaultEnv "accident near moutan" ∧
    ("emergency_type" ∈ SLOT_KEYS ∧ ("Accident" : String) ≠ "") :=
  ⟨by decide,
   (C10_extract_wellformed defaultEnv "accident near moutan").2 "Multan" (by decide),
   (C10_extract_wellformed defaultEnv "accident near moutan").1 "emergency_type" "Accident"
     (by decide)⟩

/-- C2, counterexample: an utterance containing the emergency keyword
`crash` but arriving with confidence 0.3 is handled by the noise path
("could you please repeat") — not the emergency path — because the
webhook checks noise before emergency keywords (webhook.py lines 161 vs
189). -/
theorem C2_counterexample :
    detect_emergency_keywords "there was a crash" = true ∧
    webhookSpeech defaultEnv {} {}
        { text := "there was a crash", confidence := some (mkRat 3 10) } =
      .ok ({ noisyCount := 1, transcript := [("driver", "there was a crash")] },
        .continued "I didn\x27t catch that, could you please repeat?") := by
  constructor
  · decide
  · decide

/-- C2, amended: emergency detection runs after the noise and
short-utterance guards but before slot-driven questioning, so any driver
turn that passes those guards (confidence ≥ 0.5, no inaudible marker, at
least 3 words) and contains an emergency keyword — even alongside a
normal status keyword — is handled by the emergency path. -/
theorem C2_amended (env : Env) (o : WebhookOracle) (st : WebhookState)
    (ev : SpeechEvent) (d : Decision) (atext : String)
    (hupd : updateOnlyTurn ev = false)
    (hnoise : noisyTurn ev = false)
    (hshort : shortTurn ev = false)
    (hemerg : detect_emergency_keywords ev.text = true)
    (ho : o.emergency = some d) (ha : d.agentText = some atext) :
    ∃ st', webhookSpeech env o st ev = .ok (st', .escalated atext) ∧
      st'.callStatus = "completed" ∧ st'.escalationFlagged = true := by
  simp only [webhookSpeech, webhookRespond, hupd, hnoise, hshort, hemerg, ho, ha]
  exact ⟨_, rfl, rfl, rfl⟩

/-- C2, witnessed on the spec's own example utterance, which contains
both the status keyword `driving` and the emergency keyword `crash`. -/
theorem C2_amended_witness :
    ∃ st', webhookSpeech defaultEnv
        { emergency := some { agentText := some "Dispatcher will call you.", action := some "escalate" } }
        {} { text := "i am driving but there was a crash" } =
      .ok (st', .escalated "Dispatcher will call you.") ∧
      st'.callStatus = "completed" ∧ st'.escalationFlagged = true :=
  C2_amended defaultEnv _ {} { text := "i am driving but there was a crash" }
    { agentText := some "Dispatcher will call you.", action := some "escalate" }
    "Dispatcher will call you." (by decide) (by decide) (by decide) (by decide) rfl rfl

/-- C5, counterexample: an oracle failure does propagate — on the
webhook path an emergency turn whose `emergency_protocol()` call raises
escapes the handler as an exception (there is no `try` around
webhook.py line 191). -/
theorem C5_counterexample :
    detect_emergency_keywords "there is smoke coming out" = true ∧
    webhookSpeech defaultEnv {} {} { text := "there is smoke coming out" } =
      .error "emergency_protocol raised" := by
  constructor
  · decide
  · decide

/-- The retry combinator returns the first success among the first
`n` attempts and makes at most `n` attempts. -/
theorem retryExec_spec (n : Nat) (attempts : List (Option Decision)) :
    (retryExec n attempts).1 = (attempts.take n).findSome? id ∧
      (retryExec n attempts).2 ≤ n := by
  induction n generalizing attempts with
  | zero => cases attempts <;> exact ⟨rfl, Nat.le_refl 0⟩
  | succ n ih =>
    cases attempts with
    | nil => exact ⟨rfl, Nat.zero_le _⟩
    | cons a rest =>
      cases a with
      | some d =>
        constructor
        · rw [List.take_succ_cons]
          rw [List.findSome?_cons_of_isSome _ (by simp [id])]
          rfl
        · exact Nat.succ_le_succ (Nat.zero_le n)
      | none =>
        constructor
        · rw [List.take_succ_cons]
          rw [List.findSome?_cons_of_isNone _ (by simp [id])]
          exact (ih rest).1
        · exact Nat.succ_le_succ (ih rest).2

/-- C5, amended: `decide_next_action` is retried with at most 3 attempts
(succeeding iff one of the first 3 attempts succeeds); `emergency_protocol`
is not retried (a single attempt); on the duplex channel an
emergency-oracle failure degrades to the fallback text "I understand."
without raising; on the webhook path the same failure propagates as an
exception to the caller. -/
theorem C5_amended :
    (∀ attempts, (decide_next_action_exec attempts).1 = (attempts.take 3).findSome? id ∧
        (decide_next_action_exec attempts).2 ≤ 3) ∧
    (∀ attempts, (emergency_protocol_exec attempts).1 = attempts.headD none ∧
        (emergency_protocol_exec attempts).2 ≤ 1) ∧
    (∀ (env : Env) (o : WsOracle) (st : WsState) (lu : Option String),
        pyTruthyOpt lu = true → detect_emergency_keywords (getS lu) = true →
        o.emergency = none → (wsGenerate env o st lu).2.1 = "I understand.") ∧
    (∀ (env : Env) (o : WebhookOracle) (st : WebhookState) (ev : SpeechEvent),
        updateOnlyTurn ev = false → noisyTurn ev = false → shortTurn ev = false →
        detect_emergency_keywords ev.text = true → o.emergency = none →
        webhookSpeech env o st ev = .error "emergency_protocol raised") := by
  refine ⟨fun attempts => retryExec_spec 3 attempts, ?_, ?_, ?_⟩
  · intro attempts
    cases attempts with
    | nil => exact ⟨rfl, Nat.zero_le _⟩
    | cons a rest => exact ⟨rfl, Nat.le_refl 1⟩
  · intro env o st lu htr hdet ho
    simp [wsGenerate, wsEmergency, htr, hdet, ho]
  · intro env o st ev hupd hnoise hshort hemerg ho
    simp [webhookSpeech, webhookRespond, hupd, hnoise, hshort, hemerg, ho]

/-- C5, witnessed: two failing attempts then a success consume 3
attempts; a failing single-attempt `emergency_protocol`; concrete WS and
webhook emergency turns with a failing oracle. -/
theorem C5_amended_witness :
    (decide_next_action_exec [none, none, some { agentText := some "ok" }]).1 =
        some { agentText := some "ok" } ∧
    (emergency_protocol_exec [none, some { agentText := some "late" }]).1 = none ∧
    (wsGenerate defaultEnv {} {} (some "there was a crash")).2.1 = "I understand." ∧
    webhookSpeech defaultEnv {} {} { text := "there is smoke coming out" } =
      .error "emergency_protocol raised" := by
  refine ⟨?_, ?_, ?_, ?_⟩
  · rw [(C5_amended.1 [none, none, some { agentText := some "ok" }]).1]
    decide
  · rw [(C5_amended.2.1 [none, some { agentText := some "late" }]).1]
    rfl
  · exact C5_amended.2.2.1 defaultEnv {} {} (some "there was a crash")
      (by decide) (by decide) rfl
  · exact C5_amended.2.2.2 defaultEnv {} {} { text := "there is smoke coming out" }
      (by decide) (by decide) (by decide) (by decide) rfl

/-- C6, counterexample: the webhook path has no turn-identifier
deduplication — delivering the identical speech event twice appends the
transcript twice, advances the retry counter twice, and speaks a second
response. -/
theorem C6_counterexample :
    (webhookRun defaultEnv
        [({}, { text := "i do not know" }), ({}, { text := "i do not know" })] {}).map
        (fun p => (p.1.transcript, p.1.conv.promptRetries, p.2.map WebhookResp.spoken)) =
      .ok ([("driver", "i do not know"), ("driver", "i do not know")], 2,
        [some "Got it. What\x27s your current status?",
         some "Thanks. Could you share your current status now?"]) := by
  decide

/-- C6, amended: only the duplex channel deduplicates turns — a
`response_required`/`reminder_required` body whose truthy `response_id`
equals the last handled one is skipped with no state change and no
response (llm.py lines 214-220); the webhook path re-processes
duplicates fully. -/
theorem C6_amended (env : Env) (o : WsOracle) (st : WsState) (body : WsBody) (r : Nat)
    (hty : body.interactionType = some "response_required" ∨
        body.interactionType = some "reminder_required")
    (hid : body.responseId = some r) (hr : r ≠ 0)
    (hlast : st.lastResponseIdHandled = some r) :
    wsTurn env o st body = (st, none) := by
  have hdup : wsDuplicate st body = true := by
    unfold wsDuplicate
    rw [hid]
    simp [hr, hlast]
  unfold wsTurn
  rcases hty with hty | hty <;>
    rw [if_neg (by simp [hty]), if_neg (by simp [hty]), if_pos (by simp [hdup])]

/-- C6, witnessed: a duplicate `response_id = 7` turn is a no-op. -/
theorem C6_amended_witness :
    wsTurn defaultEnv {} { lastResponseIdHandled := some 7, dbCallId := "c1" }
        { interactionType := some "response_required", responseId := some 7,
          transcript := [("user", "i am driving")] } =
      ({ lastResponseIdHandled := some 7, dbCallId := "c1" }, none) :=
  C6_amended defaultEnv {} { lastResponseIdHandled := some 7, dbCallId := "c1" }
    { interactionType := some "response_required", responseId := some 7,
      transcript := [("user", "i am driving")] } 7
    (Or.inl rfl) rfl (by decide) rfl

/-- C4, counterexample: on the webhook path the generic retry nudge is
sent on two consecutive turns verbatim — with no oracle consulted (the
oracle here is all-failing yet the run still succeeds) — so the engine
does send the same exact agent text twice in a row. -/
theorem C4_counterexample :
    (webhookRun defaultEnv
        [({}, { text := "i do not know" }), ({}, { text := "i do not know" }),
         ({}, { text := "i do not know" }), ({}, { text := "i do not know" })] {}).map
        (fun p => p.2.map WebhookResp.spoken) =
      .ok [some "Got it. What\x27s your current status?",
           some "Thanks. Could you share your current status now?",
           some "If it\x27s easier, just tell me one thing: your status, location, or ETA.",
           some "If it\x27s easier, just tell me one thing: your status, location, or ETA."] := by
  decide

/-- C4, amended: only the duplex channel has the repetition guard
(llm.py lines 517-532): a computed text differing from the last sent one
is kept; a computed text equal (after strip) to the last sent one is
replaced by the first oracle rephrase when that is non-empty and
differs, and is sent unchanged when the oracle raises.  The webhook path
performs no such check (see the counterexample). -/
theorem C4_amended :
    (∀ computed lastSent rep1 rep2, pyStrip computed ≠ pyStrip lastSent →
        (wsAvoidRepeat computed lastSent rep1 rep2).1 = computed) ∧
    (∀ computed lastSent (d1 : Decision) rep2 alt, pyStrip computed = pyStrip lastSent →
        d1.agentText = some alt → alt ≠ "" → pyStrip alt ≠ pyStrip computed →
        (wsAvoidRepeat computed lastSent (some d1) rep2).1 = alt) ∧
    (∀ computed lastSent rep2, pyStrip computed = pyStrip lastSent →
        (wsAvoidRepeat computed lastSent none rep2).1 = computed) := by
  refine ⟨?_, ?_, ?_⟩
  · intro computed lastSent rep1 rep2 h
    unfold wsAvoidRepeat
    rw [if_neg h]
  · intro computed lastSent d1 rep2 alt h ha hne hdiff
    unfold wsAvoidRepeat
    rw [if_pos h]
    simp only [ha]
    rw [if_pos (by simp [pyTruthyOpt, getS, hne, hdiff])]
    rfl
  · intro computed lastSent rep2 h
    unfold wsAvoidRepeat
    rw [if_pos h]

/-- C4, witnessed: an equal computed text is replaced by the oracle
rephrase; with a failing oracle the original is kept. -/
theorem C4_amended_witness :
    (wsAvoidRepeat "Noted. What\x27s your ETA?" "Noted. What\x27s your ETA?"
        (some { agentText := some "When do you expect to arrive?" }) none).1 =
      "When do you expect to arrive?" ∧
    (wsAvoidRepeat "Noted. What\x27s your ETA?" "Noted. What\x27s your ETA?" none none).1 =
      "Noted. What\x27s your ETA?" ∧
    (wsAvoidRepeat "Thanks. Where are you right now?" "Noted. What\x27s your ETA?"
        none none).1 = "Thanks. Where are you right now?" :=
  ⟨C4_amended.2.1 _ _ { agentText := some "When do you expect to arrive?" } none
      "When do you expect to arrive?" rfl rfl (by decide) (by decide),
   C4_amended.2.2 _ _ none rfl,
   C4_amended.1 _ _ none none (by decide)⟩

/-- C1, counterexample: with exactly `driver_status`, `current_location`
and `eta` filled, the very next webhook decision does not end the call —
`get_missing_slots` still lists the two emergency slots, so the agent
asks the emergency-type question and the call stays `in_progress`. -/
theorem C1_counterexample :
    get_missing_slots
        [("driver_status", some "Driving"), ("current_location", some "I-10 near Indio, CA"),
         ("eta", some "5pm"), ("emergency_type", none), ("emergency_location", none)] =
      ["emergency_type", "emergency_location"] ∧
    (webhookSpeech defaultEnv {}
        { slotMemory :=
            [("driver_status", some "Driving"), ("current_location", some "I-10 near Indio, CA"),
             ("eta", some "5pm"), ("emergency_type", none), ("emergency_location", none)] }
        { text := "all good over here" }).map (fun p => (p.1.callStatus, p.2)) =
      .ok ("in_progress", .okResp "Understood. What type of emergency is it?") := by
  constructor
  · decide
  · decide

/-- The ingest stage leaves the slot memory alone or applies exactly the
extractor's updates. -/
theorem webhookIngest_slotMemory (env : Env) (st : WebhookState) (ev : SpeechEvent) :
    (webhookIngest env st ev).slotMemory = st.slotMemory ∨
      (webhookIngest env st ev).slotMemory =
        update_slot_memory st.slotMemory (toUpdates (extract_slots env ev.text)) := by
  unfold webhookIngest
  dsimp only
  split
  all_goals try split
  all_goals try split
  all_goals try split
  all_goals first
    | exact Or.inl rfl
    | exact Or.inr rfl

/-- With templates enabled and the three core slots truthy,
`polite_end_from_slots` is the three-value close sentence. -/
theorem polite_end_full (env : Env) (slots : SlotDict)
    (hT : envFlagDisabled env.slotTextTemplatesEnabled = false)
    (h1 : pyTruthyOpt (dictGet slots "driver_status") = true)
    (h2 : pyTruthyOpt (dictGet slots "current_location") = true)
    (h3 : pyTruthyOpt (dictGet slots "eta") = true) :
    polite_end_from_slots env slots =
      "Thanks for the update — status " ++ getS (dictGet slots "driver_status") ++
        ", location " ++ getS (dictGet slots "current_location") ++
        ", ETA " ++ getS (dictGet slots "eta") ++ ". Drive safe." := by
  unfold polite_end_from_slots
  rw [if_pos (by simp [hT, h1, h2, h3])]

/-- The three-value close sentence is never the empty string. -/
theorem politeMsg_ne (a b c : String) :
    "Thanks for the update — status " ++ a ++ ", location " ++ b ++
      ", ETA " ++ c ++ ". Drive safe." ≠ "" := by
  intro hc
  have hd := congrArg String.data hc
  simp only [String_data_append] at hd
  simp at hd

/-- Each of the three close-sentence slots appears verbatim inside it. -/
theorem politeMsg_parts (a b c : String) :
    a.data <:+: ("Thanks for the update — status " ++ a ++ ", location " ++ b ++
      ", ETA " ++ c ++ ". Drive safe.").data ∧
    b.data <:+: ("Thanks for the update — status " ++ a ++ ", location " ++ b ++
      ", ETA " ++ c ++ ". Drive safe.").data ∧
    c.data <:+: ("Thanks for the update — status " ++ a ++ ", location " ++ b ++
      ", ETA " ++ c ++ ". Drive safe.").data := by
  refine ⟨⟨"Thanks for the update — status ".data,
      (", location " ++ b ++ ", ETA " ++ c ++ ". Drive safe.").data, ?_⟩,
    ⟨("Thanks for the update — status " ++ a ++ ", location ").data,
      (", ETA " ++ c ++ ". Drive safe.").data, ?_⟩,
    ⟨("Thanks for the update — status " ++ a ++ ", location " ++ b ++ ", ETA ").data,
      ". Drive safe.".data, ?_⟩⟩ <;>
  · simp only [String_data_append, List.append_assoc]

/-- A driver turn passing the noise/short/emergency guards on a state
whose five slots are all filled ends the call with the templated close
sentence. -/
theorem webhookRespond_full (env : Env) (o : WebhookOracle) (st : WebhookState)
    (ev : SpeechEvent)
    (hT : envFlagDisabled env.slotTextTemplatesEnabled = false)
    (hfull : ∀ k ∈ SLOT_KEYS, pyTruthyOpt (dictGet st.slotMemory k) = true)
    (hupd : updateOnlyTurn ev = false) (hnoise : noisyTurn ev = false)
    (hshort : shortTurn ev = false) (hemerg : detect_emergency_keywords ev.text = false) :
    webhookRespond env o st ev =
      .ok ({ st with callStatus := "completed" },
        .ended (polite_end_from_slots env st.slotMemory)) := by
  have hmiss : get_missing_slots st.slotMemory = [] := by
    unfold get_missing_slots
    rw [List.filter_eq_nil_iff]
    intro k hk
    rcases (pyTruthyOpt_iff _).mp (hfull k hk) with ⟨v, hv, hvne⟩
    rw [hv]
    simp [hvne]
  have hne : polite_end_from_slots env st.slotMemory ≠ "" := by
    rw [polite_end_full env st.slotMemory hT (hfull _ (by decide)) (hfull _ (by decide))
        (hfull _ (by decide))]
    exact politeMsg_ne _ _ _
  unfold webhookRespond
  rw [if_neg (by simp [hupd]), if_neg (by simp [hnoise]), if_neg (by simp [hshort]),
      if_neg (by simp [hemerg])]
  by_cases hf : farewellTurn (pyLower ev.text) = true
  · rw [if_pos (by simp [hf])]
  · rw [if_neg (by simp [hf]), if_pos hmiss, if_pos hne]

/-- C1, amended: termination completeness holds for the full Slot Set —
once all five slots (including the two emergency slots) are non-null and
non-empty, the very next webhook decision on a turn passing the
noise/short/emergency guards (with templates enabled) completes the call
and speaks the close sentence embedding the current `driver_status`,
`current_location` and `eta` values; with only the three core slots
filled, the emergency slots are still missing and the agent asks about
them instead (see the counterexample). -/
theorem C1_amended (env : Env) (o : WebhookOracle) (st : WebhookState) (ev : SpeechEvent)
    (hT : envFlagDisabled env.slotTextTemplatesEnabled = false)
    (hfull : ∀ k ∈ SLOT_KEYS, pyTruthyOpt (dictGet st.slotMemory k) = true)
    (hupd : updateOnlyTurn ev = false) (hnoise : noisyTurn ev = false)
    (hshort : shortTurn ev = false) (hemerg : detect_emergency_keywords ev.text = false) :
    ∃ st' ds lo et,
      webhookSpeech env o st ev =
        .ok (st', .ended ("Thanks for the update — status " ++ ds ++ ", location " ++ lo ++
          ", ETA " ++ et ++ ". Drive safe.")) ∧
      st'.callStatus = "completed" ∧
      dictGet st'.slotMemory "driver_status" = some ds ∧
      dictGet st'.slotMemory "current_location" = some lo ∧
      dictGet st'.slotMemory "eta" = some et ∧
      ds.data <:+: ("Thanks for the update — status " ++ ds ++ ", location " ++ lo ++
          ", ETA " ++ et ++ ". Drive safe.").data ∧
      lo.data <:+: ("Thanks for the update — status " ++ ds ++ ", location " ++ lo ++
          ", ETA " ++ et ++ ". Drive safe.").data ∧
      et.data <:+: ("Thanks for the update — status " ++ ds ++ ", location " ++ lo ++
          ", ETA " ++ et ++ ". Drive safe.").data := by
  have hfull1 : ∀ k ∈ SLOT_KEYS,
      pyTruthyOpt (dictGet (webhookIngest env st ev).slotMemory k) = true := by
    intro k hk
    rcases webhookIngest_slotMemory env st ev with h | h
    · rw [h]
      exact hfull k hk
    · rw [h]
      exact update_slot_memory_truthy _ _ _ (hfull k hk)
  obtain ⟨v1, hv1, _⟩ := (pyTruthyOpt_iff _).mp (hfull1 "driver_status" (by decide))
  obtain ⟨v2, hv2, _⟩ := (pyTruthyOpt_iff _).mp (hfull1 "current_location" (by decide))
  obtain ⟨v3, hv3, _⟩ := (pyTruthyOpt_iff _).mp (hfull1 "eta" (by decide))
  have hmsg : polite_end_from_slots env (webhookIngest env st ev).slotMemory =
      "Thanks for the update — status " ++ v1 ++ ", location " ++ v2 ++
        ", ETA " ++ v3 ++ ". Drive safe." := by
    rw [polite_end_full env _ hT (hfull1 _ (by decide)) (hfull1 _ (by decide))
        (hfull1 _ (by decide)), hv1, hv2, hv3]
    rfl
  refine ⟨{ webhookIngest env st ev with callStatus := "completed" }, v1, v2, v3,
    ?_, rfl, hv1, hv2, hv3, (politeMsg_parts v1 v2 v3).1, (politeMsg_parts v1 v2 v3).2.1,
    (politeMsg_parts v1 v2 v3).2.2⟩
  show webhookRespond env o (webhookIngest env st ev) ev = _
  rw [webhookRespond_full env o (webhookIngest env st ev) ev hT hfull1 hupd hnoise
      hshort hemerg, hmsg]

unseal slotLocValue in
/-- C1, witnessed: all five slots filled, a neutral driver turn, close
sentence embeds the three core values. -/
theorem C1_amended_witness :
    ∃ st' ds lo et,
      webhookSpeech defaultEnv {}
          { slotMemory :=
              [("driver_status", some "Driving"), ("current_location", some "I-10 near Indio, CA"),
               ("eta", some "5pm"), ("emergency_type", some "Accident"),
               ("emergency_location", some "I-10")] }
          { text := "that is everything from me" } =
        .ok (st', .ended ("Thanks for the update — status " ++ ds ++ ", location " ++ lo ++
          ", ETA " ++ et ++ ". Drive safe.")) ∧
      st'.callStatus = "completed" ∧
      dictGet st'.slotMemory "driver_status" = some ds ∧
      dictGet st'.slotMemory "current_location" = some lo ∧
      dictGet st'.slotMemory "eta" = some et ∧
      ds.data <:+: ("Thanks for the update — status " ++ ds ++ ", location " ++ lo ++
          ", ETA " ++ et ++ ". Drive safe.").data ∧
      lo.data <:+: ("Thanks for the update — status " ++ ds ++ ", location " ++ lo ++
          ", ETA " ++ et ++ ". Drive safe.").data ∧
      et.data <:+: ("Thanks for the update — status " ++ ds ++ ", location " ++ lo ++
          ", ETA " ++ et ++ ". Drive safe.").data :=
  C1_amended defaultEnv {}
    { slotMemory :=
        [("driver_status", some "Driving"), ("current_location", some "I-10 near Indio, CA"),
         ("eta", some "5pm"), ("emergency_type", some "Accident"),
         ("emergency_location", some "I-10")] }
    { text := "that is everything from me" }
    (by decide) (by decide) (by decide) (by decide) (by decide) (by decide)

/-- Confirmation handling never touches the shared slot memory. -/
theorem wsHandleConfirmation_dbSlotMemory (st : WsState) (l : String) :
    (wsHandleConfirmation st l).1.dbSlotMemory = st.dbSlotMemory := by
  unfold wsHandleConfirmation
  repeat' split
  all_goals rfl

/-- Confirmation handling never touches the call id. -/
theorem wsHandleConfirmation_dbCallId (st : WsState) (l : String) :
    (wsHandleConfirmation st l).1.dbCallId = st.dbCallId := by
  unfold wsHandleConfirmation
  repeat' split
  all_goals rfl

/-- Awaiting confirmation, an affirmative keyword match returns the
closing text with `end_now_affirm` set. -/
theorem wsHandleConfirmation_affirm (st : WsState) (l : String)
    (hA : st.awaitingConfirmation = true)
    (ha : wsAffirmWords.any (fun w => pyIn w l) = true) :
    wsHandleConfirmation st l =
      ({ st with awaitingConfirmation := false },
       "Thanks for confirming. Drive safe â€” ending the call.", true) := by
  unfold wsHandleConfirmation
  rw [if_neg (by simp [hA]), if_pos ha]

/-- Awaiting confirmation, a negative keyword match (with no affirmative
match) resets only the three local capture flags and the awaiting flag —
the shared slot memory is left as it was. -/
theorem wsHandleConfirmation_neg (st : WsState) (l : String)
    (hA : st.awaitingConfirmation = true)
    (hna : wsAffirmWords.any (fun w => pyIn w l) = false)
    (hn : wsNegWords.any (fun w => pyIn w l) = true) :
    wsHandleConfirmation st l =
      ({ st with
         awaitingConfirmation := false,
         capturedStatus := false,
         capturedLocation := false,
         capturedEta := false },
       "No problem. What is your current status?", false) := by
  unfold wsHandleConfirmation
  rw [if_neg (by simp [hA]), if_neg (by simp [hna]), if_pos hn]

/-- The WS ingest stage preserves a truthy slot. -/
theorem wsIngest_slot_mono (env : Env) (st : WsState) (lu : String) (k : String)
    (h : pyTruthyOpt (dictGet st.dbSlotMemory k) = true) :
    pyTruthyOpt (dictGet (wsIngest env st lu).dbSlotMemory k) = true := by
  unfold wsIngest
  dsimp only
  split
  · split
    · exact update_slot_memory_truthy _ _ _ h
    · exact h
  · exact h

/-- The WS ingest stage leaves the awaiting flag alone. -/
theorem wsIngest_awaiting (env : Env) (st : WsState) (lu : String) :
    (wsIngest env st lu).awaitingConfirmation = st.awaitingConfirmation := by
  unfold wsIngest
  dsimp only
  repeat' split
  all_goals rfl

/-- The WS ingest stage leaves the call id alone. -/
theorem wsIngest_dbCallId (env : Env) (st : WsState) (lu : String) :
    (wsIngest env st lu).dbCallId = st.dbCallId := by
  unfold wsIngest
  dsimp only
  repeat' split
  all_goals rfl

/-- The emergency branch preserves a truthy slot (it only ever writes
the two emergency keys through `update_slot_memory`). -/
theorem wsEmergency_slot_mono (o : WsOracle) (st : WsState) (e : Bool) (k : String)
    (h : pyTruthyOpt (dictGet st.dbSlotMemory k) = true) :
    pyTruthyOpt (dictGet (wsEmergency o st e).1.dbSlotMemory k) = true := by
  unfold wsEmergency
  dsimp only
  repeat' split
  all_goals
    first
      | exact h
      | exact update_slot_memory_truthy _ _ _ h

/-- The emergency branch leaves the call id alone. -/
theorem wsEmergency_dbCallId (o : WsOracle) (st : WsState) (e : Bool) :
    (wsEmergency o st e).1.dbCallId = st.dbCallId := by
  unfold wsEmergency
  dsimp only
  repeat' split
  all_goals rfl

/-- The emergency branch passes `end_now_affirm` through unchanged. -/
theorem wsEmergency_end (o : WsOracle) (st : WsState) (e : Bool) :
    (wsEmergency o st e).2.2.1 = e := by
  unfold wsEmergency
  dsimp only
  repeat' split
  all_goals rfl

/-- The capture stage only writes the local flags and values. -/
theorem wsCapture_dbSlotMemory (st : WsState) (lu lower : String) :
    (wsCapture st lu lower).dbSlotMemory = st.dbSlotMemory := by
  unfold wsCapture
  dsimp only
  repeat' split
  all_goals rfl

/-- The capture stage leaves the call id alone. -/
theorem wsCapture_dbCallId (st : WsState) (lu lower : String) :
    (wsCapture st lu lower).dbCallId = st.dbCallId := by
  unfold wsCapture
  dsimp only
  repeat' split
  all_goals rfl

/-- The questioning stage preserves a truthy slot (its three writes go
through `update_slot_memory`). -/
theorem wsQuestion_slot_mono (env : Env) (o : WsOracle) (st : WsState) (a : String)
    (e : Bool) (k : String) (h : pyTruthyOpt (dictGet st.dbSlotMemory k) = true) :
    pyTruthyOpt (dictGet (wsQuestion env o st a e).1.dbSlotMemory k) = true := by
  unfold wsQuestion
  dsimp only
  repeat' split
  all_goals
    repeat
      first
        | exact h
        | apply update_slot_memory_truthy

/-- The questioning stage leaves the call id alone. -/
theorem wsQuestion_dbCallId (env : Env) (o : WsOracle) (st : WsState) (a : String)
    (e : Bool) : (wsQuestion env o st a e).1.dbCallId = st.dbCallId := by
  unfold wsQuestion
  dsimp only
  repeat' split
  all_goals rfl

/-- With `end_now_affirm` already set, the questioning stage reports it
set as well (its only reassignment sets it to `true`). -/
theorem wsQuestion_affirm (env : Env) (o : WsOracle) (st : WsState) (a : String) :
    (wsQuestion env o st a true).2.2 = true := by
  unfold wsQuestion
  dsimp only
  repeat' split
  all_goals rfl

/-- The out-of-scope guard keeps the state and the end flag. -/
theorem wsGuard_state_end (o : WsOracle) (st : WsState) (a : String) (e : Bool) :
    (wsGuard o st a e).1 = st ∧ (wsGuard o st a e).2.2.1 = e := by
  unfold wsGuard
  dsimp only
  repeat' split
  all_goals exact ⟨rfl, rfl⟩

/-- The capture recompute only writes the local capture flags. -/
theorem wsRecompute_preserves (msgs : List (String × String)) : ∀ st : WsState,
    (wsRecompute st msgs).dbSlotMemory = st.dbSlotMemory ∧
      (wsRecompute st msgs).awaitingConfirmation = st.awaitingConfirmation ∧
      (wsRecompute st msgs).dbCallId = st.dbCallId := by
  induction msgs with
  | nil => exact fun st => ⟨rfl, rfl, rfl⟩
  | cons m t ih =>
    intro st
    unfold wsRecompute at ih ⊢
    rw [List.foldl_cons]
    refine ⟨((ih _).1).trans ?_, ((ih _).2.1).trans ?_, ((ih _).2.2).trans ?_⟩ <;>
    · dsimp only
      repeat' split
      all_goals rfl

/-- The per-message slot refresh of non-speaking turns (the body of the
fold in `wsRefreshFromTranscript`) preserves a truthy slot along any
message list. -/
theorem wsRefresh_fold_mono (env : Env) (l : List (String × String)) :
    ∀ (st : WsState) (k : String),
      pyTruthyOpt (dictGet st.dbSlotMemory k) = true →
      pyTruthyOpt (dictGet ((l.foldl
        (fun st msg =>
          if msg.1 = "user" || msg.1 = "driver" then
            let updates := extract_slots env msg.2
            if updates ≠ [] && st.dbCallId ≠ "" then
              { st with dbSlotMemory := update_slot_memory st.dbSlotMemory (toUpdates updates) }
            else st
          else st) st)).dbSlotMemory k) = true := by
  induction l with
  | nil => exact fun st k h => h
  | cons m t ih =>
    intro st k h
    rw [List.foldl_cons]
    apply ih
    dsimp only
    split
    · split
      · exact update_slot_memory_truthy _ _ _ h
      · exact h
    · exact h

/-- The transcript-tail slot refresh preserves a truthy slot. -/
theorem wsRefresh_slot_mono (env : Env) (st : WsState) (msgs : List (String × String))
    (k : String) (h : pyTruthyOpt (dictGet st.dbSlotMemory k) = true) :
    pyTruthyOpt (dictGet (wsRefreshFromTranscript env st msgs).dbSlotMemory k) = true :=
  wsRefresh_fold_mono env (pyTail3 msgs) st k h

/-- The whole WS generator preserves a truthy slot. -/
theorem wsGenerate_slot_mono (env : Env) (o : WsOracle) (st : WsState) (lu : Option String)
    (k : String) (h : pyTruthyOpt (dictGet st.dbSlotMemory k) = true) :
    pyTruthyOpt (dictGet (wsGenerate env o st lu).1.dbSlotMemory k) = true := by
  have h1 : pyTruthyOpt
      (dictGet (wsHandleConfirmation (wsIngest env st (getS lu))
        (pyLower (getS lu))).1.dbSlotMemory k) = true := by
    rw [wsHandleConfirmation_dbSlotMemory]
    exact wsIngest_slot_mono env st (getS lu) k h
  unfold wsGenerate
  split
  · split
    · exact h
    · split
      all_goals exact h
  · dsimp only
    split
    · exact wsEmergency_slot_mono _ _ _ _ h1
    · rw [(wsGuard_state_end _ _ _ _).1]
      apply wsQuestion_slot_mono
      rw [wsCapture_dbSlotMemory]
      exact h1

/-- The whole WS generator leaves the call id alone. -/
theorem wsGenerate_dbCallId (env : Env) (o : WsOracle) (st : WsState) (lu : Option String) :
    (wsGenerate env o st lu).1.dbCallId = st.dbCallId := by
  unfold wsGenerate
  split
  · split
    · rfl
    · split
      all_goals rfl
  · dsimp only
    split
    · rw [wsEmergency_dbCallId, wsHandleConfirmation_dbCallId, wsIngest_dbCallId]
    · rw [(wsGuard_state_end _ _ _ _).1, wsQuestion_dbCallId, wsCapture_dbCallId,
        wsHandleConfirmation_dbCallId, wsIngest_dbCallId]

/-- Awaiting confirmation, an affirmative keyword in the user text makes
the generator return `end_now_affirm = true`, whatever else happens. -/
theorem wsGenerate_affirm (env : Env) (o : WsOracle) (st : WsState) (lu : Option String)
    (hT : pyTruthyOpt lu = true)
    (hA : st.awaitingConfirmation = true)
    (ha : wsAffirmWords.any (fun w => pyIn w (pyLower (getS lu))) = true) :
    (wsGenerate env o st lu).2.2.1 = true := by
  unfold wsGenerate
  rw [if_neg (by simp [hT])]
  dsimp only
  rw [wsHandleConfirmation_affirm (wsIngest env st (getS lu)) (pyLower (getS lu))
      (by rw [wsIngest_awaiting]; exact hA) ha]
  dsimp only
  split
  · rw [wsEmergency_end]
  · rw [(wsGuard_state_end _ _ _ _).2]
    exact wsQuestion_affirm _ _ _ _

/-- The emit stage never touches the slot memory. -/
theorem wsEmit_dbSlotMemory (o : WsOracle) (body : WsBody) (lu : Option String)
    (g : WsState × String × Bool × Option String) :
    (wsEmit o body lu g).1.dbSlotMemory = g.1.dbSlotMemory := by
  unfold wsEmit
  dsimp only
  repeat' split
  all_goals rfl

/-- With `end_now_affirm` set, the emit stage sends a response with
`end_call = true`, and completes the call when a DB row is attached. -/
theorem wsEmit_affirm (o : WsOracle) (body : WsBody) (lu : Option String)
    (g : WsState × String × Bool × Option String) (hg : g.2.2.1 = true) :
    ∃ ev, (wsEmit o body lu g).2 = some (.response ev) ∧ ev.endCall = true ∧
      (g.1.dbCallId ≠ "" → (wsEmit o body lu g).1.dbCallStatus = "completed") := by
  unfold wsEmit
  dsimp only
  rw [hg]
  simp only [Bool.or_true, Bool.true_or, Bool.true_and]
  refine ⟨_, rfl, rfl, ?_⟩
  intro hid
  split
  · rw [if_pos (by simp [hid])]
  · rw [if_pos (by simp [hid])]

/-- Across one whole WS loop iteration, a filled slot is never cleared
(every write path goes through `update_slot_memory`, which skips `None`
and empty values). -/
theorem wsTurn_slot_mono (env : Env) (o : WsOracle) (st : WsState) (body : WsBody)
    (k : String) (h : pyTruthyOpt (dictGet st.dbSlotMemory k) = true) :
    pyTruthyOpt (dictGet (wsTurn env o st body).1.dbSlotMemory k) = true := by
  unfold wsTurn
  split
  · exact h
  split
  · exact wsRefresh_slot_mono env st body.transcript k h
  split
  · exact h
  · dsimp only
    rw [wsEmit_dbSlotMemory]
    apply wsGenerate_slot_mono
    split
    · rw [(wsRecompute_preserves _ _).1]
      split
      · exact h
      · exact h
    · split
      · exact h
      · exact h

/-- On a speaking turn whose latest user utterance matches an
affirmative confirmation keyword while confirmation is pending, the loop
replies with `end_call = true` and, when a DB row is attached, marks the
call completed. -/
theorem wsTurn_affirm (env : Env) (o : WsOracle) (st : WsState) (body : WsBody)
    (mu : String × String)
    (hI : body.interactionType = some "response_required")
    (hdup : wsDuplicate st body = false)
    (hA : st.awaitingConfirmation = true)
    (hlu : body.transcript.reverse.find? (fun m => m.1 = "user") = some mu)
    (hu : mu.2 ≠ "")
    (ha : wsAffirmWords.any (fun w => pyIn w (pyLower mu.2)) = true) :
    ∃ ev, (wsTurn env o st body).2 = some (.response ev) ∧ ev.endCall = true ∧
      (st.dbCallId ≠ "" → (wsTurn env o st body).1.dbCallStatus = "completed") := by
  have hT : pyTruthyOpt (some mu.2) = true := by simp [pyTruthyOpt, hu]
  unfold wsTurn
  rw [if_neg (by simp [hI]), if_neg (by simp [hI]), if_neg (by simp [hdup])]
  dsimp only
  rw [hlu]
  simp only [Option.map_some']
  rw [if_pos hT]
  have key : ∀ st2 : WsState, st2.awaitingConfirmation = true → st2.dbCallId = st.dbCallId →
      ∃ ev, (wsEmit o body (some mu.2) (wsGenerate env o st2 (some mu.2))).2 =
          some (.response ev) ∧ ev.endCall = true ∧
        (st.dbCallId ≠ "" →
          (wsEmit o body (some mu.2) (wsGenerate env o st2 (some mu.2))).1.dbCallStatus =
            "completed") := by
    intro st2 hA2 hid2
    obtain ⟨ev, h1, h2, h3⟩ := wsEmit_affirm o body (some mu.2)
      (wsGenerate env o st2 (some mu.2))
      (wsGenerate_affirm env o st2 (some mu.2) hT hA2 ha)
    refine ⟨ev, h1, h2, fun hid => h3 ?_⟩
    rw [wsGenerate_dbCallId, hid2]
    exact hid
  split
  · exact key _ (by rw [(wsRecompute_preserves _ _).2.1]; split <;> exact hA)
      (by rw [(wsRecompute_preserves _ _).2.2]; split <;> rfl)
  · exact key _ (by split <;> exact hA) (by split <;> rfl)

/-- C9, counterexample: awaiting confirmation with all three core slots
filled in shared memory, the driver says "no" — yet no slot is reset to
null (`driver_status` keeps its value, the whole memory is unchanged),
and the reply is not the restart prompt of the negative branch but the
slot-driven follow-up computed from the still-filled memory. -/
theorem C9_counterexample :
    (wsTurn defaultEnv {}
        { awaitingConfirmation := true, dbCallId := "c1", openingSent := true,
          capturedStatus := true, capturedLocation := true, capturedEta := true,
          svStatus := some "Driving", svLocation := some "Multan", svEta := some "5pm",
          dbSlotMemory :=
            [("driver_status", some "Driving"), ("current_location", some "Multan"),
             ("eta", some "5pm"), ("emergency_type", none), ("emergency_location", none)] }
        { interactionType := some "response_required", responseId := some 1,
          transcript := [("agent", "Is that correct?"), ("user", "no")] }).1.dbSlotMemory =
      [("driver_status", some "Driving"), ("current_location", some "Multan"),
       ("eta", some "5pm"), ("emergency_type", none), ("emergency_location", none)] ∧
    (wsTurn defaultEnv {}
        { awaitingConfirmation := true, dbCallId := "c1", openingSent := true,
          capturedStatus := true, capturedLocation := true, capturedEta := true,
          svStatus := some "Driving", svLocation := some "Multan", svEta := some "5pm",
          dbSlotMemory :=
            [("driver_status", some "Driving"), ("current_location", some "Multan"),
             ("eta", some "5pm"), ("emergency_type", none), ("emergency_location", none)] }
        { interactionType := some "response_required", responseId := some 1,
          transcript := [("agent", "Is that correct?"), ("user", "no")] }).2 =
      some (.response { content := "Understood. What type of emergency is it?", endCall := false, responseId := some 1 }) := by
  constructor
  · decide
  · decide

/-- C9, amended: the negative-confirmation branch resets only the local
capture flags and the awaiting flag — the shared Slot Set is never set
back to null, neither by the branch itself (which does not touch it) nor
by anything else in the turn (every write goes through
`update_slot_memory`, which cannot clear a filled slot) — and its
restart prompt is only provisional (the slot-driven block recomputes the
reply from the still-filled memory, see the counterexample); the
affirmative branch does end the call: the reply carries
`end_call = true` and an attached DB row is marked completed. -/
theorem C9_amended (env : Env) (o : WsOracle) (st : WsState) (body : WsBody)
    (mu : String × String)
    (hI : body.interactionType = some "response_required")
    (hdup : wsDuplicate st body = false)
    (hA : st.awaitingConfirmation = true)
    (hlu : body.transcript.reverse.find? (fun m => m.1 = "user") = some mu)
    (hu : mu.2 ≠ "") :
    (wsNegWords.any (fun w => pyIn w (pyLower mu.2)) = true →
      wsAffirmWords.any (fun w => pyIn w (pyLower mu.2)) = false →
      wsHandleConfirmation st (pyLower mu.2) =
        ({ st with
           awaitingConfirmation := false,
           capturedStatus := false,
           capturedLocation := false,
           capturedEta := false },
         "No problem. What is your current status?", false)) ∧
    (∀ k, pyTruthyOpt (dictGet st.dbSlotMemory k) = true →
      pyTruthyOpt (dictGet (wsTurn env o st body).1.dbSlotMemory k) = true) ∧
    (wsAffirmWords.any (fun w => pyIn w (pyLower mu.2)) = true →
      ∃ ev, (wsTurn env o st body).2 = some (.response ev) ∧ ev.endCall = true ∧
        (st.dbCallId ≠ "" → (wsTurn env o st body).1.dbCallStatus = "completed")) :=
  ⟨fun hn hna => wsHandleConfirmation_neg st (pyLower mu.2) hA hna hn,
   fun k h => wsTurn_slot_mono env o st body k h,
   fun ha => wsTurn_affirm env o st body mu hI hdup hA hlu hu ha⟩

/-- C9, witnessed: an affirmative "yes" on a pending confirmation with
an attached DB row — the negative clause is vacuous here, the turn keeps
every filled slot, ends the call and completes the row. -/
theorem C9_amended_witness :
    (wsNegWords.any (fun w => pyIn w (pyLower ("user", "yes").2)) = true →
      wsAffirmWords.any (fun w => pyIn w (pyLower ("user", "yes").2)) = false →
      wsHandleConfirmation
          { awaitingConfirmation := true, dbCallId := "c1", openingSent := true,
            dbSlotMemory :=
              [("driver_status", some "Driving"), ("current_location", some "Multan"),
               ("eta", some "5pm"), ("emergency_type", none), ("emergency_location", none)] }
          (pyLower ("user", "yes").2) =
        ({ { awaitingConfirmation := true, dbCallId := "c1", openingSent := true,
             dbSlotMemory :=
               [("driver_status", some "Driving"), ("current_location", some "Multan"),
                ("eta", some "5pm"), ("emergency_type", none),
                ("emergency_location", none)] : WsState } with
           awaitingConfirmation := false,
           capturedStatus := false,
           capturedLocation := false,
           capturedEta := false },
         "No problem. What is your current status?", false)) ∧
    (∀ k, pyTruthyOpt (dictGet
        [("driver_status", some "Driving"), ("current_location", some "Multan"),
         ("eta", some "5pm"), ("emergency_type", none), ("emergency_location", none)] k) =
          true →
      pyTruthyOpt (dictGet (wsTurn defaultEnv {}
          { awaitingConfirmation := true, dbCallId := "c1", openingSent := true,
            dbSlotMemory :=
              [("driver_status", some "Driving"), ("current_location", some "Multan"),
               ("eta", some "5pm"), ("emergency_type", none), ("emergency_location", none)] }
          { interactionType := some "response_required", responseId := some 1,
            transcript := [("user", "yes")] }).1.dbSlotMemory k) = true) ∧
    (wsAffirmWords.any (fun w => pyIn w (pyLower ("user", "yes").2)) = true →
      ∃ ev, (wsTurn defaultEnv {}
          { awaitingConfirmation := true, dbCallId := "c1", openingSent := true,
            dbSlotMemory :=
              [("driver_status", some "Driving"), ("current_location", some "Multan"),
               ("eta", some "5pm"), ("emergency_type", none), ("emergency_location", none)] }
          { interactionType := some "response_required", responseId := some 1,
            transcript := [("user", "yes")] }).2 = some (.response ev) ∧
        ev.endCall = true ∧
        (({ awaitingConfirmation := true, dbCallId := "c1", openingSent := true,
            dbSlotMemory :=
              [("driver_status", some "Driving"), ("current_location", some "Multan"),
               ("eta", some "5pm"), ("emergency_type", none), ("emergency_location", none)] :
            WsState }).dbCallId ≠ "" →
          (wsTurn defaultEnv {}
            { awaitingConfirmation := true, dbCallId := "c1", openingSent := true,
              dbSlotMemory :=
                [("driver_status", some "Driving"), ("current_location", some "Multan"),
                 ("eta", some "5pm"), ("emergency_type", none),
                 ("emergency_location", none)] }
            { interactionType := some "response_required", responseId := some 1,
              transcript := [("user", "yes")] }).1.dbCallStatus = "completed")) :=
  C9_amended defaultEnv {}
    { awaitingConfirmation := true, dbCallId := "c1", openingSent := true,
      dbSlotMemory :=
        [("driver_status", some "Driving"), ("current_location", some "Multan"),
         ("eta", some "5pm"), ("emergency_type", none), ("emergency_location", none)] }
    { interactionType := some "response_required", responseId := some 1,
      transcript := [("user", "yes")] }
    ("user", "yes") rfl rfl rfl rfl (by decide)

end VoiceAgent
